import Mathlib

/-!
The context-polymorphic dispatcher of libusbip (`libusbip.c`).

A shallow embedding of `src/libusbip/libusbip.c`.

* C pointers are `Option`s: `none` is `NULL`, `some v` a valid pointer to `v`.
* C `int`, `libusbip_error_t` and `libusbip_ctx_t` values are `Int`s; values of
  type `uint16_t` / `uint32_t` are `Nat`s.  A `libusbip_error_t` is taken to be
  represented as an `int`, so the conversions between the two are the identity.
* The functions of `client.h`, `server.h` and `error.h` are external to the file.
  Every call to one of them is appended, with its arguments, to the trace of the
  `World`; the value a client function returns is given by an `Env`, as a
  function of the history and of the call.
* The file-scope variable `libusbip_ctx` is a field of the `World`.
-/

namespace Libusbip

/-! ## Declarations of `libusbip.h` -/

/-- Modelled from the spec: the enumerators and the buffer bound declared in
`libusbip.h`, which is not among the sources.  The spec names them (`SUCCESS`,
`FAILURE`, `CLIENT`, `SERVER`, `MAX_DATA`) without fixing their values, so they
are parameters of the whole development. -/
structure Consts where
  LIBUSBIP_E_SUCCESS : Int
  LIBUSBIP_E_FAILURE : Int
  LIBUSBIP_CTX_CLIENT : Int
  LIBUSBIP_CTX_SERVER : Int
  LIBUSBIP_MAX_DATA : Int
deriving DecidableEq, Repr

/-- Modelled from the spec: `struct libusbip_connection_info` of `libusbip.h`
(ConnectionInfo: role, socket, server_error).  The source reads `ctx`. -/
structure libusbip_connection_info where
  ctx : Int
  sock : Int
  server_error : Int
deriving DecidableEq, Repr

/-- Modelled from the spec: `struct libusbip_device` of `libusbip.h` (DeviceRef). -/
structure libusbip_device where
  session_id : Int
deriving DecidableEq, Repr

/-- Modelled from the spec: `struct libusbip_device_handle` of `libusbip.h`
(HandleRef). -/
structure libusbip_device_handle where
  session_id : Int
deriving DecidableEq, Repr

/-- Modelled from the spec: `struct libusbip_device_list` of `libusbip.h`
(DeviceList). -/
structure libusbip_device_list where
  n_devices : Int
  devices : List libusbip_device
deriving DecidableEq, Repr

/-- Modelled from the spec: `struct libusbip_device_descriptor` of `libusbip.h`
(DeviceDescriptor). -/
structure libusbip_device_descriptor where
  bLength : Nat
  bDescriptorType : Nat
  bcdUSB : Nat
  bDeviceClass : Nat
  bDeviceSubClass : Nat
  bDeviceProtocol : Nat
  bMaxPacketSize0 : Nat
  idVendor : Nat
  idProduct : Nat
  bcdDevice : Nat
  iManufacturer : Nat
  iProduct : Nat
  iSerialNumber : Nat
  bNumConfigurations : Nat
deriving DecidableEq, Repr

/-- Modelled from the spec: `struct libusbip_rpc_info` of `libusbip.h` (RpcRecord).
The field names are the ones `libusbip_rpc_call` reads. -/
structure libusbip_rpc_info where
  ci : libusbip_connection_info
  dl : libusbip_device_list
  dev : libusbip_device
  dh : libusbip_device_handle
  dd : libusbip_device_descriptor
  vid : Nat
  pid : Nat
  intf : Int
  alt_setting : Int
  conf : Int
  endpoint : Nat
  idx : Nat
  req_type : Nat
  req : Nat
  val : Nat
  len : Nat
  timeout : Nat
  length : Int
  transferred : Int
  data : List Nat
deriving DecidableEq, Repr

/-- Modelled from the spec: the enumerators of `libusbip_rpc_t` (`libusbip.h`);
the tag values are contiguous from 0 in the order of the operation catalog. -/
def LIBUSBIP_RPC_USB_INIT : Int := 0

/-- Modelled from the spec: enumerator of `libusbip_rpc_t`, second of the catalog. -/
def LIBUSBIP_RPC_USB_EXIT : Int := 1

/-- Modelled from the spec: enumerator of `libusbip_rpc_t`, third of the catalog. -/
def LIBUSBIP_RPC_USB_GET_DEVICE_LIST : Int := 2

/-- Modelled from the spec: enumerator of `libusbip_rpc_t`, fourth of the catalog. -/
def LIBUSBIP_RPC_USB_GET_DEVICE_DESCRIPTOR : Int := 3

/-- Modelled from the spec: enumerator of `libusbip_rpc_t`, fifth of the catalog. -/
def LIBUSBIP_RPC_USB_OPEN : Int := 4

/-- Modelled from the spec: enumerator of `libusbip_rpc_t`, sixth of the catalog. -/
def LIBUSBIP_RPC_USB_OPEN_DEVICE_WITH_VID_PID : Int := 5

/-- Modelled from the spec: enumerator of `libusbip_rpc_t`, seventh of the catalog. -/
def LIBUSBIP_RPC_USB_CLOSE : Int := 6

/-- Modelled from the spec: enumerator of `libusbip_rpc_t`, eighth of the catalog. -/
def LIBUSBIP_RPC_USB_CLAIM_INTERFACE : Int := 7

/-- Modelled from the spec: enumerator of `libusbip_rpc_t`, ninth of the catalog. -/
def LIBUSBIP_RPC_USB_RELEASE_INTERFACE : Int := 8

/-- Modelled from the spec: enumerator of `libusbip_rpc_t`, tenth of the catalog. -/
def LIBUSBIP_RPC_USB_GET_CONFIGURATION : Int := 9

/-- Modelled from the spec: enumerator of `libusbip_rpc_t`, eleventh of the catalog. -/
def LIBUSBIP_RPC_USB_SET_CONFIGURATION : Int := 10

/-- Modelled from the spec: enumerator of `libusbip_rpc_t`, twelfth of the catalog. -/
def LIBUSBIP_RPC_USB_SET_INTERFACE_ALT_SETTING : Int := 11

/-- Modelled from the spec: enumerator of `libusbip_rpc_t`, thirteenth of the catalog. -/
def LIBUSBIP_RPC_USB_RESET_DEVICE : Int := 12

/-- Modelled from the spec: enumerator of `libusbip_rpc_t`, fourteenth of the catalog. -/
def LIBUSBIP_RPC_USB_CLEAR_HALT : Int := 13

/-- Modelled from the spec: enumerator of `libusbip_rpc_t`, fifteenth of the catalog. -/
def LIBUSBIP_RPC_USB_GET_STRING_DESCRIPTOR_ASCII : Int := 14

/-- Modelled from the spec: enumerator of `libusbip_rpc_t`, sixteenth of the catalog. -/
def LIBUSBIP_RPC_USB_CONTROL_TRANSFER : Int := 15

/-- Modelled from the spec: enumerator of `libusbip_rpc_t`, seventeenth of the catalog. -/
def LIBUSBIP_RPC_USB_BULK_TRANSFER : Int := 16

/-! ## The external calls and the world they act on -/

/-- The functions defined in `libusbip.c`; the value of `__func__` in a diagnostic. -/
inductive Func where
  | libusbip_init
  | libusbip_exit
  | libusbip_get_device_list
  | libusbip_get_device_descriptor
  | libusbip_open
  | libusbip_open_device_with_vid_pid
  | libusbip_close
  | libusbip_claim_interface
  | libusbip_release_interface
  | libusbip_get_configuration
  | libusbip_set_configuration
  | libusbip_set_interface_alt_setting
  | libusbip_reset_device
  | libusbip_clear_halt
  | libusbip_get_string_descriptor_ascii
  | libusbip_control_transfer
  | libusbip_bulk_transfer
  | libusbip_rpc_call
deriving DecidableEq, Repr

/-- The diagnostic functions of `error.h` called by `libusbip.c`. -/
inductive Diag where
  | error_illegal_libusbip_connection_info
  | error_illegal_libusbip_ctx_t
  | error_illegal_libusbip_device_list
  | error_illegal_libusbip_device
  | error_illegal_libusbip_device_descriptor
  | error_illegal_libusbip_device_handle
  | error_illegal_buffer
  | error_illegal_length
  | error_illegal_libusbip_rpc_info
  | error_illegal_libusbip_rpc_t
deriving DecidableEq, Repr

/-- A call of a function of `client.h` (the client path of an operation), with
the arguments of the call.  Pointer arguments are known to be valid when the
source has checked them; the unchecked ones stay `Option`s. -/
inductive ClientCall where
  | client_usb_init (ci : libusbip_connection_info)
  | client_usb_exit (ci : libusbip_connection_info)
  | client_usb_get_device_list (ci : libusbip_connection_info) (dl : libusbip_device_list)
  | client_usb_get_device_descriptor (ci : libusbip_connection_info)
      (dev : libusbip_device) (dd : libusbip_device_descriptor)
  | client_usb_open (ci : libusbip_connection_info) (dev : libusbip_device)
      (dh : libusbip_device_handle)
  | client_usb_open_device_with_vid_pid (ci : libusbip_connection_info)
      (dh : libusbip_device_handle) (vid pid : Nat)
  | client_usb_close (ci : libusbip_connection_info) (dh : libusbip_device_handle)
  | client_usb_claim_interface (ci : libusbip_connection_info)
      (dh : libusbip_device_handle) (intf : Int)
  | client_usb_release_interface (ci : libusbip_connection_info)
      (dh : libusbip_device_handle) (intf : Int)
  | client_usb_get_configuration (ci : libusbip_connection_info)
      (dh : libusbip_device_handle) (conf : Option Int)
  | client_usb_set_configuration (ci : libusbip_connection_info)
      (dh : libusbip_device_handle) (conf : Int)
  | client_usb_set_interface_alt_setting (ci : libusbip_connection_info)
      (dh : libusbip_device_handle) (intf alt_setting : Int)
  | client_usb_reset_device (ci : libusbip_connection_info) (dh : libusbip_device_handle)
  | client_usb_clear_halt (ci : libusbip_connection_info) (dh : libusbip_device_handle)
      (endpoint : Nat)
  | client_usb_get_string_descriptor_ascii (ci : libusbip_connection_info)
      (dh : libusbip_device_handle) (idx : Nat) (data : List Nat) (length : Int)
  | client_usb_control_transfer (ci : libusbip_connection_info)
      (dh : libusbip_device_handle) (req_type req val idx : Nat)
      (data : Option (List Nat)) (len timeout : Nat)
  | client_usb_bulk_transfer (ci : libusbip_connection_info)
      (dh : libusbip_device_handle) (endpoint : Nat) (data : Option (List Nat))
      (length : Int) (transferred : Option Int) (timeout : Nat)
deriving DecidableEq, Repr

/-- A call of a function of `server.h` (the server path of an operation), with
the arguments of the call; `ctx` is the value of `libusbip_ctx` at the call
(for `server_usb_init`, which receives `&libusbip_ctx`, the value it points to). -/
inductive ServerCall where
  | server_usb_init (ci : libusbip_connection_info) (ctx : Nat)
  | server_usb_exit (ctx : Nat)
  | server_usb_get_device_list (ci : libusbip_connection_info) (ctx : Nat)
  | server_usb_get_device_descriptor (ci : libusbip_connection_info) (ctx : Nat)
  | server_usb_open (ci : libusbip_connection_info) (ctx : Nat)
  | server_usb_open_device_with_vid_pid (ci : libusbip_connection_info) (ctx : Nat)
  | server_usb_close (ci : libusbip_connection_info)
  | server_usb_claim_interface (ci : libusbip_connection_info)
  | server_usb_release_interface (ci : libusbip_connection_info)
  | server_usb_get_configuration (ci : libusbip_connection_info)
  | server_usb_set_configuration (ci : libusbip_connection_info)
  | server_usb_set_interface_alt_setting (ci : libusbip_connection_info)
  | server_usb_reset_device (ci : libusbip_connection_info)
  | server_usb_clear_halt (ci : libusbip_connection_info)
  | server_usb_get_string_descriptor_ascii (ci : libusbip_connection_info)
  | server_usb_control_transfer (ci : libusbip_connection_info)
  | server_usb_bulk_transfer (ci : libusbip_connection_info)
deriving DecidableEq, Repr

/-- What `libusbip.c` does to the outside: a client path call, a server path call,
or a diagnostic `d(__func__)`. -/
inductive Event where
  | client (c : ClientCall)
  | server (c : ServerCall)
  | diag (d : Diag) (func : Func)
deriving DecidableEq, Repr

/-- The state the functions of `libusbip.c` act on: the calls made so far, and the
file-scope pointer `libusbip_ctx` (0 is `NULL`). -/
structure World where
  trace : List Event
  libusbip_ctx : Nat
deriving DecidableEq, Repr

/-- The behaviour of the external functions: the value a client function returns,
and the value `server_usb_init` leaves in `libusbip_ctx`, each as a function of
the calls made so far and of the arguments. -/
structure Env where
  client_ret : List Event → ClientCall → Int
  server_init_ctx : List Event → libusbip_connection_info → Nat → Nat

/-- Append one event to the trace. -/
def World.log (w : World) (e : Event) : World :=
  { w with trace := w.trace ++ [e] }

/-- A call `d(__func__)` of a diagnostic function. -/
def report (d : Diag) (func : Func) (w : World) : World :=
  w.log (Event.diag d func)

/-- A call of a client function: logged, and its return value taken from `env`. -/
def client_call (env : Env) (c : ClientCall) (w : World) : Int × World :=
  (env.client_ret w.trace c, w.log (Event.client c))

/-- A call of a server function other than `server_usb_init`: logged. -/
def server_call (c : ServerCall) (w : World) : World :=
  w.log (Event.server c)

/-- The call `server_usb_init(ci, &libusbip_ctx)`: logged, and `libusbip_ctx` set
to what the handler stores through the pointer. -/
def server_usb_init (env : Env) (ci : libusbip_connection_info) (w : World) : World :=
  { trace := w.trace ++ [Event.server (ServerCall.server_usb_init ci w.libusbip_ctx)],
    libusbip_ctx := env.server_init_ctx w.trace ci w.libusbip_ctx }

/-! ## `libusbip.c` -/

/-- The macro `IS_VALID_LENGTH(__length)`:
`__length >= 0 && __length < LIBUSBIP_MAX_DATA`. -/
def IS_VALID_LENGTH (k : Consts) (length : Int) : Bool :=
  decide (length ≥ 0) && decide (length < k.LIBUSBIP_MAX_DATA)

/-- The function `libusbip_init` of `libusbip.c`. -/
def libusbip_init (k : Consts) (env : Env) (ci : Option libusbip_connection_info)
    (w : World) : Int × World :=
  match ci with
  | none =>
    (k.LIBUSBIP_E_FAILURE, report Diag.error_illegal_libusbip_connection_info Func.libusbip_init w)
  | some c =>
    if c.ctx = k.LIBUSBIP_CTX_CLIENT then
      client_call env (ClientCall.client_usb_init c) w
    else if c.ctx = k.LIBUSBIP_CTX_SERVER then
      (k.LIBUSBIP_E_SUCCESS, server_usb_init env c w)
    else
      (k.LIBUSBIP_E_FAILURE, report Diag.error_illegal_libusbip_ctx_t Func.libusbip_init w)

/-- The function `libusbip_exit` of `libusbip.c` (returns `void`). -/
def libusbip_exit (k : Consts) (env : Env) (ci : Option libusbip_connection_info)
    (w : World) : World :=
  match ci with
  | none => report Diag.error_illegal_libusbip_connection_info Func.libusbip_exit w
  | some c =>
    if c.ctx = k.LIBUSBIP_CTX_CLIENT then
      (client_call env (ClientCall.client_usb_exit c) w).2
    else if c.ctx = k.LIBUSBIP_CTX_SERVER then
      server_call (ServerCall.server_usb_exit w.libusbip_ctx) w
    else
      report Diag.error_illegal_libusbip_ctx_t Func.libusbip_exit w

/-- The function `libusbip_get_device_list` of `libusbip.c` (returns `void`). -/
def libusbip_get_device_list (k : Consts) (env : Env) (ci : Option libusbip_connection_info)
    (dl : Option libusbip_device_list) (w : World) : World :=
  match ci with
  | none => report Diag.error_illegal_libusbip_connection_info Func.libusbip_get_device_list w
  | some c =>
    match dl with
    | none => report Diag.error_illegal_libusbip_device_list Func.libusbip_get_device_list w
    | some l =>
      if c.ctx = k.LIBUSBIP_CTX_CLIENT then
        (client_call env (ClientCall.client_usb_get_device_list c l) w).2
      else if c.ctx = k.LIBUSBIP_CTX_SERVER then
        server_call (ServerCall.server_usb_get_device_list c w.libusbip_ctx) w
      else
        report Diag.error_illegal_libusbip_ctx_t Func.libusbip_get_device_list w

/-- The function `libusbip_get_device_descriptor` of `libusbip.c`. -/
def libusbip_get_device_descriptor (k : Consts) (env : Env)
    (ci : Option libusbip_connection_info) (dev : Option libusbip_device)
    (dd : Option libusbip_device_descriptor) (w : World) : Int × World :=
  match ci with
  | none =>
    (k.LIBUSBIP_E_FAILURE,
      report Diag.error_illegal_libusbip_connection_info Func.libusbip_get_device_descriptor w)
  | some c =>
    match dev with
    | none =>
      (k.LIBUSBIP_E_FAILURE,
        report Diag.error_illegal_libusbip_device Func.libusbip_get_device_descriptor w)
    | some d =>
      match dd with
      | none =>
        (k.LIBUSBIP_E_FAILURE,
          report Diag.error_illegal_libusbip_device_descriptor
            Func.libusbip_get_device_descriptor w)
      | some desc =>
        if c.ctx = k.LIBUSBIP_CTX_CLIENT then
          client_call env (ClientCall.client_usb_get_device_descriptor c d desc) w
        else if c.ctx = k.LIBUSBIP_CTX_SERVER then
          (k.LIBUSBIP_E_SUCCESS,
            server_call (ServerCall.server_usb_get_device_descriptor c w.libusbip_ctx) w)
        else
          (k.LIBUSBIP_E_FAILURE,
            report Diag.error_illegal_libusbip_ctx_t Func.libusbip_get_device_descriptor w)

/-- The function `libusbip_open` of `libusbip.c`. -/
def libusbip_open (k : Consts) (env : Env) (ci : Option libusbip_connection_info)
    (dev : Option libusbip_device) (dh : Option libusbip_device_handle) (w : World) :
    Int × World :=
  match ci with
  | none =>
    (k.LIBUSBIP_E_FAILURE, report Diag.error_illegal_libusbip_connection_info Func.libusbip_open w)
  | some c =>
    match dev with
    | none =>
      (k.LIBUSBIP_E_FAILURE, report Diag.error_illegal_libusbip_device Func.libusbip_open w)
    | some d =>
      match dh with
      | none =>
        (k.LIBUSBIP_E_FAILURE,
          report Diag.error_illegal_libusbip_device_handle Func.libusbip_open w)
      | some h =>
        if c.ctx = k.LIBUSBIP_CTX_CLIENT then
          client_call env (ClientCall.client_usb_open c d h) w
        else if c.ctx = k.LIBUSBIP_CTX_SERVER then
          (k.LIBUSBIP_E_SUCCESS, server_call (ServerCall.server_usb_open c w.libusbip_ctx) w)
        else
          (k.LIBUSBIP_E_FAILURE, report Diag.error_illegal_libusbip_ctx_t Func.libusbip_open w)

/-- The function `libusbip_open_device_with_vid_pid` of `libusbip.c` (returns `void`). -/
def libusbip_open_device_with_vid_pid (k : Consts) (env : Env)
    (ci : Option libusbip_connection_info) (dh : Option libusbip_device_handle)
    (vid pid : Nat) (w : World) : World :=
  match ci with
  | none =>
    report Diag.error_illegal_libusbip_connection_info Func.libusbip_open_device_with_vid_pid w
  | some c =>
    match dh with
    | none =>
      report Diag.error_illegal_libusbip_device_handle Func.libusbip_open_device_with_vid_pid w
    | some h =>
      if c.ctx = k.LIBUSBIP_CTX_CLIENT then
        (client_call env (ClientCall.client_usb_open_device_with_vid_pid c h vid pid) w).2
      else if c.ctx = k.LIBUSBIP_CTX_SERVER then
        server_call (ServerCall.server_usb_open_device_with_vid_pid c w.libusbip_ctx) w
      else
        report Diag.error_illegal_libusbip_ctx_t Func.libusbip_open_device_with_vid_pid w

/-- The function `libusbip_close` of `libusbip.c` (returns `void`). -/
def libusbip_close (k : Consts) (env : Env) (ci : Option libusbip_connection_info)
    (dh : Option libusbip_device_handle) (w : World) : World :=
  match ci with
  | none => report Diag.error_illegal_libusbip_connection_info Func.libusbip_close w
  | some c =>
    match dh with
    | none => report Diag.error_illegal_libusbip_device_handle Func.libusbip_close w
    | some h =>
      if c.ctx = k.LIBUSBIP_CTX_CLIENT then
        (client_call env (ClientCall.client_usb_close c h) w).2
      else if c.ctx = k.LIBUSBIP_CTX_SERVER then
        server_call (ServerCall.server_usb_close c) w
      else
        report Diag.error_illegal_libusbip_ctx_t Func.libusbip_close w

/-- The function `libusbip_claim_interface` of `libusbip.c`. -/
def libusbip_claim_interface (k : Consts) (env : Env) (ci : Option libusbip_connection_info)
    (dh : Option libusbip_device_handle) (intf : Int) (w : World) : Int × World :=
  match ci with
  | none =>
    (k.LIBUSBIP_E_FAILURE, report Diag.error_illegal_libusbip_connection_info Func.libusbip_claim_interface w)
  | some c =>
    match dh with
    | none =>
      (k.LIBUSBIP_E_FAILURE, report Diag.error_illegal_libusbip_device_handle Func.libusbip_claim_interface w)
    | some h =>
      if c.ctx = k.LIBUSBIP_CTX_CLIENT then
        client_call env (ClientCall.client_usb_claim_interface c h intf) w
      else if c.ctx = k.LIBUSBIP_CTX_SERVER then
        (k.LIBUSBIP_E_SUCCESS, server_call (ServerCall.server_usb_claim_interface c) w)
      else
        (k.LIBUSBIP_E_FAILURE, report Diag.error_illegal_libusbip_ctx_t Func.libusbip_claim_interface w)

/-- The function `libusbip_release_interface` of `libusbip.c`. -/
def libusbip_release_interface (k : Consts) (env : Env) (ci : Option libusbip_connection_info)
    (dh : Option libusbip_device_handle) (intf : Int) (w : World) : Int × World :=
  match ci with
  | none =>
    (k.LIBUSBIP_E_FAILURE, report Diag.error_illegal_libusbip_connection_info Func.libusbip_release_interface w)
  | some c =>
    match dh with
    | none =>
      (k.LIBUSBIP_E_FAILURE, report Diag.error_illegal_libusbip_device_handle Func.libusbip_release_interface w)
    | some h =>
      if c.ctx = k.LIBUSBIP_CTX_CLIENT then
        client_call env (ClientCall.client_usb_release_interface c h intf) w
      else if c.ctx = k.LIBUSBIP_CTX_SERVER then
        (k.LIBUSBIP_E_SUCCESS, server_call (ServerCall.server_usb_release_interface c) w)
      else
        (k.LIBUSBIP_E_FAILURE, report Diag.error_illegal_libusbip_ctx_t Func.libusbip_release_interface w)

/-- The function `libusbip_get_configuration` of `libusbip.c`. -/
def libusbip_get_configuration (k : Consts) (env : Env) (ci : Option libusbip_connection_info)
    (dh : Option libusbip_device_handle) (conf : Option Int) (w : World) : Int × World :=
  match ci with
  | none =>
    (k.LIBUSBIP_E_FAILURE, report Diag.error_illegal_libusbip_connection_info Func.libusbip_get_configuration w)
  | some c =>
    match dh with
    | none =>
      (k.LIBUSBIP_E_FAILURE, report Diag.error_illegal_libusbip_device_handle Func.libusbip_get_configuration w)
    | some h =>
      if c.ctx = k.LIBUSBIP_CTX_CLIENT then
        client_call env (ClientCall.client_usb_get_configuration c h conf) w
      else if c.ctx = k.LIBUSBIP_CTX_SERVER then
        (k.LIBUSBIP_E_SUCCESS, server_call (ServerCall.server_usb_get_configuration c) w)
      else
        (k.LIBUSBIP_E_FAILURE, report Diag.error_illegal_libusbip_ctx_t Func.libusbip_get_configuration w)

/-- The function `libusbip_set_configuration` of `libusbip.c`. -/
def libusbip_set_configuration (k : Consts) (env : Env) (ci : Option libusbip_connection_info)
    (dh : Option libusbip_device_handle) (conf : Int) (w : World) : Int × World :=
  match ci with
  | none =>
    (k.LIBUSBIP_E_FAILURE, report Diag.error_illegal_libusbip_connection_info Func.libusbip_set_configuration w)
  | some c =>
    match dh with
    | none =>
      (k.LIBUSBIP_E_FAILURE, report Diag.error_illegal_libusbip_device_handle Func.libusbip_set_configuration w)
    | some h =>
      if c.ctx = k.LIBUSBIP_CTX_CLIENT then
        client_call env (ClientCall.client_usb_set_configuration c h conf) w
      else if c.ctx = k.LIBUSBIP_CTX_SERVER then
        (k.LIBUSBIP_E_SUCCESS, server_call (ServerCall.server_usb_set_configuration c) w)
      else
        (k.LIBUSBIP_E_FAILURE, report Diag.error_illegal_libusbip_ctx_t Func.libusbip_set_configuration w)

/-- The function `libusbip_set_interface_alt_setting` of `libusbip.c`. -/
def libusbip_set_interface_alt_setting (k : Consts) (env : Env) (ci : Option libusbip_connection_info)
    (dh : Option libusbip_device_handle) (intf : Int) (alt_setting : Int) (w : World) : Int × World :=
  match ci with
  | none =>
    (k.LIBUSBIP_E_FAILURE, report Diag.error_illegal_libusbip_connection_info Func.libusbip_set_interface_alt_setting w)
  | some c =>
    match dh with
    | none =>
      (k.LIBUSBIP_E_FAILURE, report Diag.error_illegal_libusbip_device_handle Func.libusbip_set_interface_alt_setting w)
    | some h =>
      if c.ctx = k.LIBUSBIP_CTX_CLIENT then
        client_call env (ClientCall.client_usb_set_interface_alt_setting c h intf alt_setting) w
      else if c.ctx = k.LIBUSBIP_CTX_SERVER then
        (k.LIBUSBIP_E_SUCCESS, server_call (ServerCall.server_usb_set_interface_alt_setting c) w)
      else
        (k.LIBUSBIP_E_FAILURE, report Diag.error_illegal_libusbip_ctx_t Func.libusbip_set_interface_alt_setting w)

/-- The function `libusbip_reset_device` of `libusbip.c`. -/
def libusbip_reset_device (k : Consts) (env : Env) (ci : Option libusbip_connection_info)
    (dh : Option libusbip_device_handle) (w : World) : Int × World :=
  match ci with
  | none =>
    (k.LIBUSBIP_E_FAILURE, report Diag.error_illegal_libusbip_connection_info Func.libusbip_reset_device w)
  | some c =>
    match dh with
    | none =>
      (k.LIBUSBIP_E_FAILURE, report Diag.error_illegal_libusbip_device_handle Func.libusbip_reset_device w)
    | some h =>
      if c.ctx = k.LIBUSBIP_CTX_CLIENT then
        client_call env (ClientCall.client_usb_reset_device c h) w
      else if c.ctx = k.LIBUSBIP_CTX_SERVER then
        (k.LIBUSBIP_E_SUCCESS, server_call (ServerCall.server_usb_reset_device c) w)
      else
        (k.LIBUSBIP_E_FAILURE, report Diag.error_illegal_libusbip_ctx_t Func.libusbip_reset_device w)

/-- The function `libusbip_clear_halt` of `libusbip.c`. -/
def libusbip_clear_halt (k : Consts) (env : Env) (ci : Option libusbip_connection_info)
    (dh : Option libusbip_device_handle) (endpoint : Nat) (w : World) : Int × World :=
  match ci with
  | none =>
    (k.LIBUSBIP_E_FAILURE, report Diag.error_illegal_libusbip_connection_info Func.libusbip_clear_halt w)
  | some c =>
    match dh with
    | none =>
      (k.LIBUSBIP_E_FAILURE, report Diag.error_illegal_libusbip_device_handle Func.libusbip_clear_halt w)
    | some h =>
      if c.ctx = k.LIBUSBIP_CTX_CLIENT then
        client_call env (ClientCall.client_usb_clear_halt c h endpoint) w
      else if c.ctx = k.LIBUSBIP_CTX_SERVER then
        (k.LIBUSBIP_E_SUCCESS, server_call (ServerCall.server_usb_clear_halt c) w)
      else
        (k.LIBUSBIP_E_FAILURE, report Diag.error_illegal_libusbip_ctx_t Func.libusbip_clear_halt w)

/-- The function `libusbip_get_string_descriptor_ascii` of `libusbip.c`. -/
def libusbip_get_string_descriptor_ascii (k : Consts) (env : Env)
    (ci : Option libusbip_connection_info) (dh : Option libusbip_device_handle)
    (idx : Nat) (data : Option (List Nat)) (length : Int) (w : World) : Int × World :=
  match ci with
  | none =>
    (k.LIBUSBIP_E_FAILURE,
      report Diag.error_illegal_libusbip_connection_info
        Func.libusbip_get_string_descriptor_ascii w)
  | some c =>
    match dh with
    | none =>
      (k.LIBUSBIP_E_FAILURE,
        report Diag.error_illegal_libusbip_device_handle
          Func.libusbip_get_string_descriptor_ascii w)
    | some h =>
      match data with
      | none =>
        (k.LIBUSBIP_E_FAILURE,
          report Diag.error_illegal_buffer Func.libusbip_get_string_descriptor_ascii w)
      | some buf =>
        if c.ctx = k.LIBUSBIP_CTX_CLIENT ∧ IS_VALID_LENGTH k length = false then
          (k.LIBUSBIP_E_FAILURE,
            report Diag.error_illegal_length Func.libusbip_get_string_descriptor_ascii w)
        else if c.ctx = k.LIBUSBIP_CTX_CLIENT then
          client_call env
            (ClientCall.client_usb_get_string_descriptor_ascii c h idx buf length) w
        else if c.ctx = k.LIBUSBIP_CTX_SERVER then
          (k.LIBUSBIP_E_SUCCESS,
            server_call (ServerCall.server_usb_get_string_descriptor_ascii c) w)
        else
          (k.LIBUSBIP_E_FAILURE,
            report Diag.error_illegal_libusbip_ctx_t
              Func.libusbip_get_string_descriptor_ascii w)

/-- The function `libusbip_control_transfer` of `libusbip.c`; `len` is a
`uint16_t`, promoted to `int` inside `IS_VALID_LENGTH`. -/
def libusbip_control_transfer (k : Consts) (env : Env)
    (ci : Option libusbip_connection_info) (dh : Option libusbip_device_handle)
    (req_type req val idx : Nat) (data : Option (List Nat)) (len timeout : Nat)
    (w : World) : Int × World :=
  match ci with
  | none =>
    (k.LIBUSBIP_E_FAILURE,
      report Diag.error_illegal_libusbip_connection_info Func.libusbip_control_transfer w)
  | some c =>
    match dh with
    | none =>
      (k.LIBUSBIP_E_FAILURE,
        report Diag.error_illegal_libusbip_device_handle Func.libusbip_control_transfer w)
    | some h =>
      if c.ctx = k.LIBUSBIP_CTX_CLIENT ∧ IS_VALID_LENGTH k (len : Int) = false then
        (k.LIBUSBIP_E_FAILURE,
          report Diag.error_illegal_length Func.libusbip_control_transfer w)
      else if c.ctx = k.LIBUSBIP_CTX_CLIENT then
        client_call env
          (ClientCall.client_usb_control_transfer c h req_type req val idx data len timeout) w
      else if c.ctx = k.LIBUSBIP_CTX_SERVER then
        (0, server_call (ServerCall.server_usb_control_transfer c) w)
      else
        (k.LIBUSBIP_E_FAILURE,
          report Diag.error_illegal_libusbip_ctx_t Func.libusbip_control_transfer w)

/-- The function `libusbip_bulk_transfer` of `libusbip.c`. -/
def libusbip_bulk_transfer (k : Consts) (env : Env)
    (ci : Option libusbip_connection_info) (dh : Option libusbip_device_handle)
    (endpoint : Nat) (data : Option (List Nat)) (length : Int)
    (transferred : Option Int) (timeout : Nat) (w : World) : Int × World :=
  match ci with
  | none =>
    (k.LIBUSBIP_E_FAILURE,
      report Diag.error_illegal_libusbip_connection_info Func.libusbip_bulk_transfer w)
  | some c =>
    match dh with
    | none =>
      (k.LIBUSBIP_E_FAILURE,
        report Diag.error_illegal_libusbip_device_handle Func.libusbip_bulk_transfer w)
    | some h =>
      if c.ctx = k.LIBUSBIP_CTX_CLIENT ∧ IS_VALID_LENGTH k length = false then
        (k.LIBUSBIP_E_FAILURE, report Diag.error_illegal_length Func.libusbip_bulk_transfer w)
      else if c.ctx = k.LIBUSBIP_CTX_CLIENT then
        client_call env
          (ClientCall.client_usb_bulk_transfer c h endpoint data length transferred timeout) w
      else if c.ctx = k.LIBUSBIP_CTX_SERVER then
        (0, server_call (ServerCall.server_usb_bulk_transfer c) w)
      else
        (k.LIBUSBIP_E_FAILURE,
          report Diag.error_illegal_libusbip_ctx_t Func.libusbip_bulk_transfer w)

/-- The function `libusbip_rpc_call` of `libusbip.c`.  The `switch` over the
(pairwise distinct) case labels is the chain of tests below; the entries that
return `void` leave `error` at its initial `LIBUSBIP_E_SUCCESS`; the two transfer
cases `return` the entry's result directly. -/
def libusbip_rpc_call (k : Consts) (env : Env) (rpc : Int) (ri : Option libusbip_rpc_info)
    (w : World) : Int × World :=
  match ri with
  | none =>
    (k.LIBUSBIP_E_FAILURE, report Diag.error_illegal_libusbip_rpc_info Func.libusbip_rpc_call w)
  | some r =>
    if rpc = LIBUSBIP_RPC_USB_INIT then
      libusbip_init k env (some r.ci) w
    else if rpc = LIBUSBIP_RPC_USB_EXIT then
      (k.LIBUSBIP_E_SUCCESS, libusbip_exit k env (some r.ci) w)
    else if rpc = LIBUSBIP_RPC_USB_GET_DEVICE_LIST then
      (k.LIBUSBIP_E_SUCCESS, libusbip_get_device_list k env (some r.ci) (some r.dl) w)
    else if rpc = LIBUSBIP_RPC_USB_GET_DEVICE_DESCRIPTOR then
      libusbip_get_device_descriptor k env (some r.ci) (some r.dev) (some r.dd) w
    else if rpc = LIBUSBIP_RPC_USB_OPEN then
      libusbip_open k env (some r.ci) (some r.dev) (some r.dh) w
    else if rpc = LIBUSBIP_RPC_USB_OPEN_DEVICE_WITH_VID_PID then
      (k.LIBUSBIP_E_SUCCESS,
        libusbip_open_device_with_vid_pid k env (some r.ci) (some r.dh) r.vid r.pid w)
    else if rpc = LIBUSBIP_RPC_USB_CLOSE then
      (k.LIBUSBIP_E_SUCCESS, libusbip_close k env (some r.ci) (some r.dh) w)
    else if rpc = LIBUSBIP_RPC_USB_CLAIM_INTERFACE then
      libusbip_claim_interface k env (some r.ci) (some r.dh) r.intf w
    else if rpc = LIBUSBIP_RPC_USB_RELEASE_INTERFACE then
      libusbip_release_interface k env (some r.ci) (some r.dh) r.intf w
    else if rpc = LIBUSBIP_RPC_USB_GET_CONFIGURATION then
      libusbip_get_configuration k env (some r.ci) (some r.dh) (some r.conf) w
    else if rpc = LIBUSBIP_RPC_USB_SET_CONFIGURATION then
      libusbip_set_configuration k env (some r.ci) (some r.dh) r.conf w
    else if rpc = LIBUSBIP_RPC_USB_SET_INTERFACE_ALT_SETTING then
      libusbip_set_interface_alt_setting k env (some r.ci) (some r.dh) r.intf r.alt_setting w
    else if rpc = LIBUSBIP_RPC_USB_RESET_DEVICE then
      libusbip_reset_device k env (some r.ci) (some r.dh) w
    else if rpc = LIBUSBIP_RPC_USB_CLEAR_HALT then
      libusbip_clear_halt k env (some r.ci) (some r.dh) r.endpoint w
    else if rpc = LIBUSBIP_RPC_USB_GET_STRING_DESCRIPTOR_ASCII then
      libusbip_get_string_descriptor_ascii k env (some r.ci) (some r.dh) r.idx (some r.data)
        r.length w
    else if rpc = LIBUSBIP_RPC_USB_CONTROL_TRANSFER then
      libusbip_control_transfer k env (some r.ci) (some r.dh) r.req_type r.req r.val r.idx
        (some r.data) r.len r.timeout w
    else if rpc = LIBUSBIP_RPC_USB_BULK_TRANSFER then
      libusbip_bulk_transfer k env (some r.ci) (some r.dh) r.endpoint (some r.data) r.length
        (some r.transferred) r.timeout w
    else
      (k.LIBUSBIP_E_FAILURE, report Diag.error_illegal_libusbip_rpc_t Func.libusbip_rpc_call w)

/-! ## Observing the calls -/

/-- The event is a call of a client path. -/
def Event.isClient : Event → Bool
  | Event.client _ => true
  | _ => false

/-- The event is a call of a server path. -/
def Event.isServer : Event → Bool
  | Event.server _ => true
  | _ => false

/-- The event is a call of a client path or of a server path (the only places
where the socket and the USB backend are reached). -/
def Event.isPath (e : Event) : Bool :=
  e.isClient || e.isServer

/-- The events of `w2` that were added after `w`. -/
def newEvents (w w2 : World) : List Event :=
  w2.trace.drop w.trace.length

/-- The client path and server path calls made between `w` and `w2`. -/
def pathCalls (w w2 : World) : List Event :=
  (newEvents w w2).filter Event.isPath

/-- The client path calls made between `w` and `w2`. -/
def clientCalls (w w2 : World) : List Event :=
  (newEvents w w2).filter Event.isClient

/-- The server path calls made between `w` and `w2`. -/
def serverCalls (w w2 : World) : List Event :=
  (newEvents w w2).filter Event.isServer

/-! ## Concrete data used to evaluate the definitions -/

/-- A choice of the constants: `SUCCESS = 0`, `FAILURE = -1`, `CLIENT = 0`,
`SERVER = 1`, `MAX_DATA = 4096`. -/
def k0 : Consts :=
  { LIBUSBIP_E_SUCCESS := 0, LIBUSBIP_E_FAILURE := -1, LIBUSBIP_CTX_CLIENT := 0,
    LIBUSBIP_CTX_SERVER := 1, LIBUSBIP_MAX_DATA := 4096 }

/-- External functions: every client function returns 18, and `server_usb_init`
stores a fresh non-null context (the old value plus one). -/
def env0 : Env :=
  { client_ret := fun _ _ => 18, server_init_ctx := fun _ _ old => old + 1 }

/-- The initial world: nothing called, `libusbip_ctx == NULL`. -/
def w0 : World :=
  { trace := [], libusbip_ctx := 0 }

/-- A client-role ConnectionInfo (for `k0`). -/
def ci_client : libusbip_connection_info :=
  { ctx := 0, sock := 3, server_error := 0 }

/-- A server-role ConnectionInfo (for `k0`). -/
def ci_server : libusbip_connection_info :=
  { ctx := 1, sock := 4, server_error := 0 }

/-- A ConnectionInfo whose role is neither client nor server (for `k0`). -/
def ci_bad : libusbip_connection_info :=
  { ctx := 7, sock := 5, server_error := 0 }

/-- A device handle. -/
def dh0 : libusbip_device_handle :=
  { session_id := 0 }

/-- A device descriptor (a root hub). -/
def dd0 : libusbip_device_descriptor :=
  { bLength := 18, bDescriptorType := 1, bcdUSB := 512, bDeviceClass := 9,
    bDeviceSubClass := 0, bDeviceProtocol := 1, bMaxPacketSize0 := 64, idVendor := 7531,
    idProduct := 2, bcdDevice := 0, iManufacturer := 3, iProduct := 2, iSerialNumber := 1,
    bNumConfigurations := 1 }

/-- A record with the given ConnectionInfo, `len = 18`, `length = 18`. -/
def ri_of (ci : libusbip_connection_info) : libusbip_rpc_info :=
  { ci := ci, dl := { n_devices := 0, devices := [] }, dev := { session_id := 0 }, dh := dh0,
    dd := dd0, vid := 7531, pid := 2, intf := 0, alt_setting := 0, conf := 1, endpoint := 129,
    idx := 0, req_type := 128, req := 6, val := 256, len := 18, timeout := 1000, length := 18,
    transferred := 0, data := [] }

/-! ## The operation entry points, taken together -/

/-- One call of one of the seventeen operation entry points, with its arguments. -/
inductive EntryCall where
  | libusbip_init (ci : Option libusbip_connection_info)
  | libusbip_exit (ci : Option libusbip_connection_info)
  | libusbip_get_device_list (ci : Option libusbip_connection_info)
      (dl : Option libusbip_device_list)
  | libusbip_get_device_descriptor (ci : Option libusbip_connection_info)
      (dev : Option libusbip_device) (dd : Option libusbip_device_descriptor)
  | libusbip_open (ci : Option libusbip_connection_info) (dev : Option libusbip_device)
      (dh : Option libusbip_device_handle)
  | libusbip_open_device_with_vid_pid (ci : Option libusbip_connection_info)
      (dh : Option libusbip_device_handle) (vid pid : Nat)
  | libusbip_close (ci : Option libusbip_connection_info) (dh : Option libusbip_device_handle)
  | libusbip_claim_interface (ci : Option libusbip_connection_info)
      (dh : Option libusbip_device_handle) (intf : Int)
  | libusbip_release_interface (ci : Option libusbip_connection_info)
      (dh : Option libusbip_device_handle) (intf : Int)
  | libusbip_get_configuration (ci : Option libusbip_connection_info)
      (dh : Option libusbip_device_handle) (conf : Option Int)
  | libusbip_set_configuration (ci : Option libusbip_connection_info)
      (dh : Option libusbip_device_handle) (conf : Int)
  | libusbip_set_interface_alt_setting (ci : Option libusbip_connection_info)
      (dh : Option libusbip_device_handle) (intf alt_setting : Int)
  | libusbip_reset_device (ci : Option libusbip_connection_info)
      (dh : Option libusbip_device_handle)
  | libusbip_clear_halt (ci : Option libusbip_connection_info)
      (dh : Option libusbip_device_handle) (endpoint : Nat)
  | libusbip_get_string_descriptor_ascii (ci : Option libusbip_connection_info)
      (dh : Option libusbip_device_handle) (idx : Nat) (data : Option (List Nat))
      (length : Int)
  | libusbip_control_transfer (ci : Option libusbip_connection_info)
      (dh : Option libusbip_device_handle) (req_type req val idx : Nat)
      (data : Option (List Nat)) (len timeout : Nat)
  | libusbip_bulk_transfer (ci : Option libusbip_connection_info)
      (dh : Option libusbip_device_handle) (endpoint : Nat) (data : Option (List Nat))
      (length : Int) (transferred : Option Int) (timeout : Nat)
deriving DecidableEq, Repr

/-- Perform the call: the entry point of `libusbip.c` applied to the arguments.
The result is `none` for the entries that return `void`. -/
def EntryCall.run (k : Consts) (env : Env) : EntryCall → World → Option Int × World
  | EntryCall.libusbip_init ci, w =>
    (some (Libusbip.libusbip_init k env ci w).1, (Libusbip.libusbip_init k env ci w).2)
  | EntryCall.libusbip_exit ci, w => (none, Libusbip.libusbip_exit k env ci w)
  | EntryCall.libusbip_get_device_list ci dl, w =>
    (none, Libusbip.libusbip_get_device_list k env ci dl w)
  | EntryCall.libusbip_get_device_descriptor ci dev dd, w =>
    (some (Libusbip.libusbip_get_device_descriptor k env ci dev dd w).1,
      (Libusbip.libusbip_get_device_descriptor k env ci dev dd w).2)
  | EntryCall.libusbip_open ci dev dh, w =>
    (some (Libusbip.libusbip_open k env ci dev dh w).1,
      (Libusbip.libusbip_open k env ci dev dh w).2)
  | EntryCall.libusbip_open_device_with_vid_pid ci dh vid pid, w =>
    (none, Libusbip.libusbip_open_device_with_vid_pid k env ci dh vid pid w)
  | EntryCall.libusbip_close ci dh, w => (none, Libusbip.libusbip_close k env ci dh w)
  | EntryCall.libusbip_claim_interface ci dh intf, w =>
    (some (Libusbip.libusbip_claim_interface k env ci dh intf w).1,
      (Libusbip.libusbip_claim_interface k env ci dh intf w).2)
  | EntryCall.libusbip_release_interface ci dh intf, w =>
    (some (Libusbip.libusbip_release_interface k env ci dh intf w).1,
      (Libusbip.libusbip_release_interface k env ci dh intf w).2)
  | EntryCall.libusbip_get_configuration ci dh conf, w =>
    (some (Libusbip.libusbip_get_configuration k env ci dh conf w).1,
      (Libusbip.libusbip_get_configuration k env ci dh conf w).2)
  | EntryCall.libusbip_set_configuration ci dh conf, w =>
    (some (Libusbip.libusbip_set_configuration k env ci dh conf w).1,
      (Libusbip.libusbip_set_configuration k env ci dh conf w).2)
  | EntryCall.libusbip_set_interface_alt_setting ci dh intf alt_setting, w =>
    (some (Libusbip.libusbip_set_interface_alt_setting k env ci dh intf alt_setting w).1,
      (Libusbip.libusbip_set_interface_alt_setting k env ci dh intf alt_setting w).2)
  | EntryCall.libusbip_reset_device ci dh, w =>
    (some (Libusbip.libusbip_reset_device k env ci dh w).1,
      (Libusbip.libusbip_reset_device k env ci dh w).2)
  | EntryCall.libusbip_clear_halt ci dh endpoint, w =>
    (some (Libusbip.libusbip_clear_halt k env ci dh endpoint w).1,
      (Libusbip.libusbip_clear_halt k env ci dh endpoint w).2)
  | EntryCall.libusbip_get_string_descriptor_ascii ci dh idx data length, w =>
    (some (Libusbip.libusbip_get_string_descriptor_ascii k env ci dh idx data length w).1,
      (Libusbip.libusbip_get_string_descriptor_ascii k env ci dh idx data length w).2)
  | EntryCall.libusbip_control_transfer ci dh req_type req val idx data len timeout, w =>
    (some (Libusbip.libusbip_control_transfer k env ci dh req_type req val idx data len
        timeout w).1,
      (Libusbip.libusbip_control_transfer k env ci dh req_type req val idx data len
        timeout w).2)
  | EntryCall.libusbip_bulk_transfer ci dh endpoint data length transferred timeout, w =>
    (some (Libusbip.libusbip_bulk_transfer k env ci dh endpoint data length transferred
        timeout w).1,
      (Libusbip.libusbip_bulk_transfer k env ci dh endpoint data length transferred
        timeout w).2)

/-- The entry point that is called. -/
def EntryCall.func : EntryCall → Func
  | EntryCall.libusbip_init .. => Func.libusbip_init
  | EntryCall.libusbip_exit .. => Func.libusbip_exit
  | EntryCall.libusbip_get_device_list .. => Func.libusbip_get_device_list
  | EntryCall.libusbip_get_device_descriptor .. => Func.libusbip_get_device_descriptor
  | EntryCall.libusbip_open .. => Func.libusbip_open
  | EntryCall.libusbip_open_device_with_vid_pid .. => Func.libusbip_open_device_with_vid_pid
  | EntryCall.libusbip_close .. => Func.libusbip_close
  | EntryCall.libusbip_claim_interface .. => Func.libusbip_claim_interface
  | EntryCall.libusbip_release_interface .. => Func.libusbip_release_interface
  | EntryCall.libusbip_get_configuration .. => Func.libusbip_get_configuration
  | EntryCall.libusbip_set_configuration .. => Func.libusbip_set_configuration
  | EntryCall.libusbip_set_interface_alt_setting .. => Func.libusbip_set_interface_alt_setting
  | EntryCall.libusbip_reset_device .. => Func.libusbip_reset_device
  | EntryCall.libusbip_clear_halt .. => Func.libusbip_clear_halt
  | EntryCall.libusbip_get_string_descriptor_ascii .. =>
    Func.libusbip_get_string_descriptor_ascii
  | EntryCall.libusbip_control_transfer .. => Func.libusbip_control_transfer
  | EntryCall.libusbip_bulk_transfer .. => Func.libusbip_bulk_transfer

/-- The ConnectionInfo pointer of the call. -/
def EntryCall.ci : EntryCall → Option libusbip_connection_info
  | EntryCall.libusbip_init ci => ci
  | EntryCall.libusbip_exit ci => ci
  | EntryCall.libusbip_get_device_list ci _ => ci
  | EntryCall.libusbip_get_device_descriptor ci _ _ => ci
  | EntryCall.libusbip_open ci _ _ => ci
  | EntryCall.libusbip_open_device_with_vid_pid ci _ _ _ => ci
  | EntryCall.libusbip_close ci _ => ci
  | EntryCall.libusbip_claim_interface ci _ _ => ci
  | EntryCall.libusbip_release_interface ci _ _ => ci
  | EntryCall.libusbip_get_configuration ci _ _ => ci
  | EntryCall.libusbip_set_configuration ci _ _ => ci
  | EntryCall.libusbip_set_interface_alt_setting ci _ _ _ => ci
  | EntryCall.libusbip_reset_device ci _ => ci
  | EntryCall.libusbip_clear_halt ci _ _ => ci
  | EntryCall.libusbip_get_string_descriptor_ascii ci _ _ _ _ => ci
  | EntryCall.libusbip_control_transfer ci _ _ _ _ _ _ _ _ => ci
  | EntryCall.libusbip_bulk_transfer ci _ _ _ _ _ _ => ci

/-- The sub-record pointers of the call that the spec's validation step names: the
device list, device, device handle and device descriptor pointers, and the data
buffer of `libusbip_get_string_descriptor_ascii`; `true` when one of them is null. -/
def EntryCall.subRecordNull : EntryCall → Bool
  | EntryCall.libusbip_init _ => false
  | EntryCall.libusbip_exit _ => false
  | EntryCall.libusbip_get_device_list _ dl => dl.isNone
  | EntryCall.libusbip_get_device_descriptor _ dev dd => dev.isNone || dd.isNone
  | EntryCall.libusbip_open _ dev dh => dev.isNone || dh.isNone
  | EntryCall.libusbip_open_device_with_vid_pid _ dh _ _ => dh.isNone
  | EntryCall.libusbip_close _ dh => dh.isNone
  | EntryCall.libusbip_claim_interface _ dh _ => dh.isNone
  | EntryCall.libusbip_release_interface _ dh _ => dh.isNone
  | EntryCall.libusbip_get_configuration _ dh _ => dh.isNone
  | EntryCall.libusbip_set_configuration _ dh _ => dh.isNone
  | EntryCall.libusbip_set_interface_alt_setting _ dh _ _ => dh.isNone
  | EntryCall.libusbip_reset_device _ dh => dh.isNone
  | EntryCall.libusbip_clear_halt _ dh _ => dh.isNone
  | EntryCall.libusbip_get_string_descriptor_ascii _ dh _ data _ => dh.isNone || data.isNone
  | EntryCall.libusbip_control_transfer _ dh _ _ _ _ _ _ _ => dh.isNone
  | EntryCall.libusbip_bulk_transfer _ dh _ _ _ _ _ => dh.isNone

/-- The entry points declared `void`: exit, get_device_list,
open_device_with_vid_pid and close. -/
def Func.isVoid : Func → Bool
  | Func.libusbip_exit => true
  | Func.libusbip_get_device_list => true
  | Func.libusbip_open_device_with_vid_pid => true
  | Func.libusbip_close => true
  | _ => false

/-- The two transfer entry points, which return a byte count. -/
def Func.isTransfer : Func → Bool
  | Func.libusbip_control_transfer => true
  | Func.libusbip_bulk_transfer => true
  | _ => false

/-- The caller-supplied length that the client role validates, when the entry has
one (`length` of get_string_descriptor_ascii and bulk_transfer, `len` of
control_transfer, promoted to `int`). -/
def EntryCall.lengthArg : EntryCall → Option Int
  | EntryCall.libusbip_get_string_descriptor_ascii _ _ _ _ length => some length
  | EntryCall.libusbip_control_transfer _ _ _ _ _ _ _ len _ => some (len : Int)
  | EntryCall.libusbip_bulk_transfer _ _ _ _ length _ _ => some length
  | _ => none

/-- The case labels of the `switch` of `libusbip_rpc_call`, in source order. -/
def rpc_cases : List Int :=
  [LIBUSBIP_RPC_USB_INIT, LIBUSBIP_RPC_USB_EXIT, LIBUSBIP_RPC_USB_GET_DEVICE_LIST,
   LIBUSBIP_RPC_USB_GET_DEVICE_DESCRIPTOR, LIBUSBIP_RPC_USB_OPEN,
   LIBUSBIP_RPC_USB_OPEN_DEVICE_WITH_VID_PID, LIBUSBIP_RPC_USB_CLOSE,
   LIBUSBIP_RPC_USB_CLAIM_INTERFACE, LIBUSBIP_RPC_USB_RELEASE_INTERFACE,
   LIBUSBIP_RPC_USB_GET_CONFIGURATION, LIBUSBIP_RPC_USB_SET_CONFIGURATION,
   LIBUSBIP_RPC_USB_SET_INTERFACE_ALT_SETTING, LIBUSBIP_RPC_USB_RESET_DEVICE,
   LIBUSBIP_RPC_USB_CLEAR_HALT, LIBUSBIP_RPC_USB_GET_STRING_DESCRIPTOR_ASCII,
   LIBUSBIP_RPC_USB_CONTROL_TRANSFER, LIBUSBIP_RPC_USB_BULK_TRANSFER]

/-- The operation catalog of the spec (section 4.3): the entry bound to an opcode,
called on the ConnectionInfo of the record and on the record fields that the
catalog row lists as inputs or outputs of the opcode.  `none` for a value that
is not an opcode of the catalog. -/
def catalog_call (rpc : Int) (r : libusbip_rpc_info) : Option EntryCall :=
  if rpc = LIBUSBIP_RPC_USB_INIT then some (EntryCall.libusbip_init (some r.ci))
  else if rpc = LIBUSBIP_RPC_USB_EXIT then some (EntryCall.libusbip_exit (some r.ci))
  else if rpc = LIBUSBIP_RPC_USB_GET_DEVICE_LIST then
    some (EntryCall.libusbip_get_device_list (some r.ci) (some r.dl))
  else if rpc = LIBUSBIP_RPC_USB_GET_DEVICE_DESCRIPTOR then
    some (EntryCall.libusbip_get_device_descriptor (some r.ci) (some r.dev) (some r.dd))
  else if rpc = LIBUSBIP_RPC_USB_OPEN then
    some (EntryCall.libusbip_open (some r.ci) (some r.dev) (some r.dh))
  else if rpc = LIBUSBIP_RPC_USB_OPEN_DEVICE_WITH_VID_PID then
    some (EntryCall.libusbip_open_device_with_vid_pid (some r.ci) (some r.dh) r.vid r.pid)
  else if rpc = LIBUSBIP_RPC_USB_CLOSE then
    some (EntryCall.libusbip_close (some r.ci) (some r.dh))
  else if rpc = LIBUSBIP_RPC_USB_CLAIM_INTERFACE then
    some (EntryCall.libusbip_claim_interface (some r.ci) (some r.dh) r.intf)
  else if rpc = LIBUSBIP_RPC_USB_RELEASE_INTERFACE then
    some (EntryCall.libusbip_release_interface (some r.ci) (some r.dh) r.intf)
  else if rpc = LIBUSBIP_RPC_USB_GET_CONFIGURATION then
    some (EntryCall.libusbip_get_configuration (some r.ci) (some r.dh) (some r.conf))
  else if rpc = LIBUSBIP_RPC_USB_SET_CONFIGURATION then
    some (EntryCall.libusbip_set_configuration (some r.ci) (some r.dh) r.conf)
  else if rpc = LIBUSBIP_RPC_USB_SET_INTERFACE_ALT_SETTING then
    some (EntryCall.libusbip_set_interface_alt_setting (some r.ci) (some r.dh) r.intf
      r.alt_setting)
  else if rpc = LIBUSBIP_RPC_USB_RESET_DEVICE then
    some (EntryCall.libusbip_reset_device (some r.ci) (some r.dh))
  else if rpc = LIBUSBIP_RPC_USB_CLEAR_HALT then
    some (EntryCall.libusbip_clear_halt (some r.ci) (some r.dh) r.endpoint)
  else if rpc = LIBUSBIP_RPC_USB_GET_STRING_DESCRIPTOR_ASCII then
    some (EntryCall.libusbip_get_string_descriptor_ascii (some r.ci) (some r.dh) r.idx
      (some r.data) r.length)
  else if rpc = LIBUSBIP_RPC_USB_CONTROL_TRANSFER then
    some (EntryCall.libusbip_control_transfer (some r.ci) (some r.dh) r.req_type r.req r.val
      r.idx (some r.data) r.len r.timeout)
  else if rpc = LIBUSBIP_RPC_USB_BULK_TRANSFER then
    some (EntryCall.libusbip_bulk_transfer (some r.ci) (some r.dh) r.endpoint (some r.data)
      r.length (some r.transferred) r.timeout)
  else none

/-- The entry point an event belongs to: the client path and the server path of
an operation belong to the entry of that operation, a diagnostic to the function
named by its `__func__`. -/
def Event.owner : Event → Func
  | Event.diag _ f => f
  | Event.client c =>
    match c with
    | ClientCall.client_usb_init .. => Func.libusbip_init
    | ClientCall.client_usb_exit .. => Func.libusbip_exit
    | ClientCall.client_usb_get_device_list .. => Func.libusbip_get_device_list
    | ClientCall.client_usb_get_device_descriptor .. => Func.libusbip_get_device_descriptor
    | ClientCall.client_usb_open .. => Func.libusbip_open
    | ClientCall.client_usb_open_device_with_vid_pid .. =>
      Func.libusbip_open_device_with_vid_pid
    | ClientCall.client_usb_close .. => Func.libusbip_close
    | ClientCall.client_usb_claim_interface .. => Func.libusbip_claim_interface
    | ClientCall.client_usb_release_interface .. => Func.libusbip_release_interface
    | ClientCall.client_usb_get_configuration .. => Func.libusbip_get_configuration
    | ClientCall.client_usb_set_configuration .. => Func.libusbip_set_configuration
    | ClientCall.client_usb_set_interface_alt_setting .. =>
      Func.libusbip_set_interface_alt_setting
    | ClientCall.client_usb_reset_device .. => Func.libusbip_reset_device
    | ClientCall.client_usb_clear_halt .. => Func.libusbip_clear_halt
    | ClientCall.client_usb_get_string_descriptor_ascii .. =>
      Func.libusbip_get_string_descriptor_ascii
    | ClientCall.client_usb_control_transfer .. => Func.libusbip_control_transfer
    | ClientCall.client_usb_bulk_transfer .. => Func.libusbip_bulk_transfer
  | Event.server c =>
    match c with
    | ServerCall.server_usb_init .. => Func.libusbip_init
    | ServerCall.server_usb_exit .. => Func.libusbip_exit
    | ServerCall.server_usb_get_device_list .. => Func.libusbip_get_device_list
    | ServerCall.server_usb_get_device_descriptor .. => Func.libusbip_get_device_descriptor
    | ServerCall.server_usb_open .. => Func.libusbip_open
    | ServerCall.server_usb_open_device_with_vid_pid .. =>
      Func.libusbip_open_device_with_vid_pid
    | ServerCall.server_usb_close .. => Func.libusbip_close
    | ServerCall.server_usb_claim_interface .. => Func.libusbip_claim_interface
    | ServerCall.server_usb_release_interface .. => Func.libusbip_release_interface
    | ServerCall.server_usb_get_configuration .. => Func.libusbip_get_configuration
    | ServerCall.server_usb_set_configuration .. => Func.libusbip_set_configuration
    | ServerCall.server_usb_set_interface_alt_setting .. =>
      Func.libusbip_set_interface_alt_setting
    | ServerCall.server_usb_reset_device .. => Func.libusbip_reset_device
    | ServerCall.server_usb_clear_halt .. => Func.libusbip_clear_halt
    | ServerCall.server_usb_get_string_descriptor_ascii .. =>
      Func.libusbip_get_string_descriptor_ascii
    | ServerCall.server_usb_control_transfer .. => Func.libusbip_control_transfer
    | ServerCall.server_usb_bulk_transfer .. => Func.libusbip_bulk_transfer

/-- The client path that matches the entry called, applied to the caller's own
arguments (the spec's `client_path_X(conn, fields)`); `none` when a pointer that
the client function needs to be valid is null. -/
def EntryCall.clientCall : EntryCall → Option ClientCall
  | EntryCall.libusbip_init (some c) => some (ClientCall.client_usb_init c)
  | EntryCall.libusbip_exit (some c) => some (ClientCall.client_usb_exit c)
  | EntryCall.libusbip_get_device_list (some c) (some dl) =>
    some (ClientCall.client_usb_get_device_list c dl)
  | EntryCall.libusbip_get_device_descriptor (some c) (some dev) (some dd) =>
    some (ClientCall.client_usb_get_device_descriptor c dev dd)
  | EntryCall.libusbip_open (some c) (some dev) (some dh) =>
    some (ClientCall.client_usb_open c dev dh)
  | EntryCall.libusbip_open_device_with_vid_pid (some c) (some dh) vid pid =>
    some (ClientCall.client_usb_open_device_with_vid_pid c dh vid pid)
  | EntryCall.libusbip_close (some c) (some dh) => some (ClientCall.client_usb_close c dh)
  | EntryCall.libusbip_claim_interface (some c) (some dh) intf =>
    some (ClientCall.client_usb_claim_interface c dh intf)
  | EntryCall.libusbip_release_interface (some c) (some dh) intf =>
    some (ClientCall.client_usb_release_interface c dh intf)
  | EntryCall.libusbip_get_configuration (some c) (some dh) conf =>
    some (ClientCall.client_usb_get_configuration c dh conf)
  | EntryCall.libusbip_set_configuration (some c) (some dh) conf =>
    some (ClientCall.client_usb_set_configuration c dh conf)
  | EntryCall.libusbip_set_interface_alt_setting (some c) (some dh) intf alt_setting =>
    some (ClientCall.client_usb_set_interface_alt_setting c dh intf alt_setting)
  | EntryCall.libusbip_reset_device (some c) (some dh) =>
    some (ClientCall.client_usb_reset_device c dh)
  | EntryCall.libusbip_clear_halt (some c) (some dh) endpoint =>
    some (ClientCall.client_usb_clear_halt c dh endpoint)
  | EntryCall.libusbip_get_string_descriptor_ascii (some c) (some dh) idx (some data) length =>
    some (ClientCall.client_usb_get_string_descriptor_ascii c dh idx data length)
  | EntryCall.libusbip_control_transfer (some c) (some dh) req_type req val idx data len
      timeout =>
    some (ClientCall.client_usb_control_transfer c dh req_type req val idx data len timeout)
  | EntryCall.libusbip_bulk_transfer (some c) (some dh) endpoint data length transferred
      timeout =>
    some (ClientCall.client_usb_bulk_transfer c dh endpoint data length transferred timeout)
  | _ => none

/-- The fields of the record other than the ConnectionInfo. -/
inductive Field where
  | dl | dev | dh | dd | vid | pid | intf | alt_setting | conf | endpoint | idx
  | req_type | req | val | len | timeout | length | transferred | data
deriving DecidableEq, Repr

/-- Two records hold the same value in the field. -/
def Field.same (f : Field) (r r2 : libusbip_rpc_info) : Bool :=
  match f with
  | Field.dl => decide (r.dl = r2.dl)
  | Field.dev => decide (r.dev = r2.dev)
  | Field.dh => decide (r.dh = r2.dh)
  | Field.dd => decide (r.dd = r2.dd)
  | Field.vid => decide (r.vid = r2.vid)
  | Field.pid => decide (r.pid = r2.pid)
  | Field.intf => decide (r.intf = r2.intf)
  | Field.alt_setting => decide (r.alt_setting = r2.alt_setting)
  | Field.conf => decide (r.conf = r2.conf)
  | Field.endpoint => decide (r.endpoint = r2.endpoint)
  | Field.idx => decide (r.idx = r2.idx)
  | Field.req_type => decide (r.req_type = r2.req_type)
  | Field.req => decide (r.req = r2.req)
  | Field.val => decide (r.val = r2.val)
  | Field.len => decide (r.len = r2.len)
  | Field.timeout => decide (r.timeout = r2.timeout)
  | Field.length => decide (r.length = r2.length)
  | Field.transferred => decide (r.transferred = r2.transferred)
  | Field.data => decide (r.data = r2.data)

/-- The operation catalog of the spec (section 4.3): the record fields a row lists
as input fields or output fields of the opcode (`handle` is `dh`,
`device_list` is `dl`, `device_descriptor` is `dd`). -/
def catalog_fields (rpc : Int) : List Field :=
  if rpc = LIBUSBIP_RPC_USB_INIT then []
  else if rpc = LIBUSBIP_RPC_USB_EXIT then []
  else if rpc = LIBUSBIP_RPC_USB_GET_DEVICE_LIST then [Field.dl]
  else if rpc = LIBUSBIP_RPC_USB_GET_DEVICE_DESCRIPTOR then [Field.dev, Field.dd]
  else if rpc = LIBUSBIP_RPC_USB_OPEN then [Field.dev, Field.dh]
  else if rpc = LIBUSBIP_RPC_USB_OPEN_DEVICE_WITH_VID_PID then
    [Field.vid, Field.pid, Field.dh]
  else if rpc = LIBUSBIP_RPC_USB_CLOSE then [Field.dh]
  else if rpc = LIBUSBIP_RPC_USB_CLAIM_INTERFACE then [Field.dh, Field.intf]
  else if rpc = LIBUSBIP_RPC_USB_RELEASE_INTERFACE then [Field.dh, Field.intf]
  else if rpc = LIBUSBIP_RPC_USB_GET_CONFIGURATION then [Field.dh, Field.conf]
  else if rpc = LIBUSBIP_RPC_USB_SET_CONFIGURATION then [Field.dh, Field.conf]
  else if rpc = LIBUSBIP_RPC_USB_SET_INTERFACE_ALT_SETTING then
    [Field.dh, Field.intf, Field.alt_setting]
  else if rpc = LIBUSBIP_RPC_USB_RESET_DEVICE then [Field.dh]
  else if rpc = LIBUSBIP_RPC_USB_CLEAR_HALT then [Field.dh, Field.endpoint]
  else if rpc = LIBUSBIP_RPC_USB_GET_STRING_DESCRIPTOR_ASCII then
    [Field.dh, Field.idx, Field.length, Field.data]
  else if rpc = LIBUSBIP_RPC_USB_CONTROL_TRANSFER then
    [Field.dh, Field.req_type, Field.req, Field.val, Field.idx, Field.data, Field.len,
     Field.timeout]
  else if rpc = LIBUSBIP_RPC_USB_BULK_TRANSFER then
    [Field.dh, Field.endpoint, Field.data, Field.length, Field.timeout, Field.transferred]
  else []

/-- The call `libusbip_rpc_call(rpc, &r)` did not take the `default` case of the
`switch`: no `error_illegal_libusbip_rpc_t` diagnostic was issued. -/
def rpc_recognised (k : Consts) (env : Env) (rpc : Int) (r : libusbip_rpc_info)
    (w : World) : Bool :=
  !decide (Event.diag Diag.error_illegal_libusbip_rpc_t Func.libusbip_rpc_call
    ∈ newEvents w (libusbip_rpc_call k env rpc (some r) w).2)

/-- The function of `libusbip.c` to which the first event of the call
`libusbip_rpc_call(rpc, &r)` belongs: the operation the opcode is routed to. -/
def rpc_owner (k : Consts) (env : Env) (rpc : Int) (r : libusbip_rpc_info)
    (w : World) : Option Func :=
  (newEvents w (libusbip_rpc_call k env rpc (some r) w).2).head?.map Event.owner

/-- The opcode values below `n` that `libusbip_rpc_call` recognises. -/
def recognised_below (k : Consts) (env : Env) (r : libusbip_rpc_info) (w : World)
    (n : Nat) : List Nat :=
  (List.range n).filter (fun i => rpc_recognised k env (i : Int) r w)

/-- The opcode of the catalog row of an entry point (`libusbip_rpc_call` itself
has none and gets -1). -/
def Func.opcode : Func → Int
  | Func.libusbip_init => LIBUSBIP_RPC_USB_INIT
  | Func.libusbip_exit => LIBUSBIP_RPC_USB_EXIT
  | Func.libusbip_get_device_list => LIBUSBIP_RPC_USB_GET_DEVICE_LIST
  | Func.libusbip_get_device_descriptor => LIBUSBIP_RPC_USB_GET_DEVICE_DESCRIPTOR
  | Func.libusbip_open => LIBUSBIP_RPC_USB_OPEN
  | Func.libusbip_open_device_with_vid_pid => LIBUSBIP_RPC_USB_OPEN_DEVICE_WITH_VID_PID
  | Func.libusbip_close => LIBUSBIP_RPC_USB_CLOSE
  | Func.libusbip_claim_interface => LIBUSBIP_RPC_USB_CLAIM_INTERFACE
  | Func.libusbip_release_interface => LIBUSBIP_RPC_USB_RELEASE_INTERFACE
  | Func.libusbip_get_configuration => LIBUSBIP_RPC_USB_GET_CONFIGURATION
  | Func.libusbip_set_configuration => LIBUSBIP_RPC_USB_SET_CONFIGURATION
  | Func.libusbip_set_interface_alt_setting => LIBUSBIP_RPC_USB_SET_INTERFACE_ALT_SETTING
  | Func.libusbip_reset_device => LIBUSBIP_RPC_USB_RESET_DEVICE
  | Func.libusbip_clear_halt => LIBUSBIP_RPC_USB_CLEAR_HALT
  | Func.libusbip_get_string_descriptor_ascii => LIBUSBIP_RPC_USB_GET_STRING_DESCRIPTOR_ASCII
  | Func.libusbip_control_transfer => LIBUSBIP_RPC_USB_CONTROL_TRANSFER
  | Func.libusbip_bulk_transfer => LIBUSBIP_RPC_USB_BULK_TRANSFER
  | Func.libusbip_rpc_call => -1

/-- The record `ri_of ci_client` with another `vid`, `pid` and `conf`. -/
def ri_other : libusbip_rpc_info :=
  { ri_of ci_client with vid := 1133, pid := 49198, conf := 2 }

/-- The server path that matches the entry called, applied to the ConnectionInfo
and, where the handler takes it, to the backend context `ctx` (the spec's
`server_path_X(conn, backend_ctx)`); `none` when the ConnectionInfo is null. -/
def EntryCall.serverCall (ctx : Nat) : EntryCall → Option ServerCall
  | EntryCall.libusbip_init (some c) => some (ServerCall.server_usb_init c ctx)
  | EntryCall.libusbip_exit (some _) => some (ServerCall.server_usb_exit ctx)
  | EntryCall.libusbip_get_device_list (some c) _ =>
    some (ServerCall.server_usb_get_device_list c ctx)
  | EntryCall.libusbip_get_device_descriptor (some c) _ _ =>
    some (ServerCall.server_usb_get_device_descriptor c ctx)
  | EntryCall.libusbip_open (some c) _ _ => some (ServerCall.server_usb_open c ctx)
  | EntryCall.libusbip_open_device_with_vid_pid (some c) _ _ _ =>
    some (ServerCall.server_usb_open_device_with_vid_pid c ctx)
  | EntryCall.libusbip_close (some c) _ => some (ServerCall.server_usb_close c)
  | EntryCall.libusbip_claim_interface (some c) _ _ =>
    some (ServerCall.server_usb_claim_interface c)
  | EntryCall.libusbip_release_interface (some c) _ _ =>
    some (ServerCall.server_usb_release_interface c)
  | EntryCall.libusbip_get_configuration (some c) _ _ =>
    some (ServerCall.server_usb_get_configuration c)
  | EntryCall.libusbip_set_configuration (some c) _ _ =>
    some (ServerCall.server_usb_set_configuration c)
  | EntryCall.libusbip_set_interface_alt_setting (some c) _ _ _ =>
    some (ServerCall.server_usb_set_interface_alt_setting c)
  | EntryCall.libusbip_reset_device (some c) _ => some (ServerCall.server_usb_reset_device c)
  | EntryCall.libusbip_clear_halt (some c) _ _ => some (ServerCall.server_usb_clear_halt c)
  | EntryCall.libusbip_get_string_descriptor_ascii (some c) _ _ _ _ =>
    some (ServerCall.server_usb_get_string_descriptor_ascii c)
  | EntryCall.libusbip_control_transfer (some c) _ _ _ _ _ _ _ _ =>
    some (ServerCall.server_usb_control_transfer c)
  | EntryCall.libusbip_bulk_transfer (some c) _ _ _ _ _ _ =>
    some (ServerCall.server_usb_bulk_transfer c)
  | _ => none

/-- A client-role record with a valid `len` (18) and an invalid `length` (-1). -/
def ri_len_only : libusbip_rpc_info :=
  { ri_of ci_client with length := -1 }

/-- A client-role record with a valid `length` (18) and an invalid `len` (4096). -/
def ri_length_only : libusbip_rpc_info :=
  { ri_of ci_client with len := 4096 }

/-! ## Theorems -/

/-- The events added by one logged event. -/
theorem newEvents_log (w : World) (e : Event) : newEvents w (w.log e) = [e] := by
  simp [newEvents, World.log]

/-- The events added by one diagnostic. -/
theorem newEvents_report (d : Diag) (f : Func) (w : World) :
    newEvents w (report d f w) = [Event.diag d f] := by
  simp [report, newEvents_log]

/-- A diagnostic is no path call. -/
theorem pathCalls_report (d : Diag) (f : Func) (w : World) :
    pathCalls w (report d f w) = [] := by
  simp [pathCalls, report, newEvents_log, Event.isPath, Event.isClient, Event.isServer]

/-- Every call of an entry point adds exactly one event to the trace, and that
event belongs to the entry called: its client path, its server path, or a
diagnostic carrying its name. -/
theorem entry_logs_one_event (k : Consts) (env : Env) (c : EntryCall) (w : World) :
    ∃ e, (c.run k env w).2.trace = w.trace ++ [e] ∧ e.owner = c.func := by
  cases c <;>
    simp only [EntryCall.run, EntryCall.func, libusbip_init, libusbip_exit,
      libusbip_get_device_list, libusbip_get_device_descriptor, libusbip_open,
      libusbip_open_device_with_vid_pid, libusbip_close, libusbip_claim_interface,
      libusbip_release_interface, libusbip_get_configuration, libusbip_set_configuration,
      libusbip_set_interface_alt_setting, libusbip_reset_device, libusbip_clear_halt,
      libusbip_get_string_descriptor_ascii, libusbip_control_transfer,
      libusbip_bulk_transfer] <;>
    (repeat' split) <;>
    simp [report, World.log, client_call, server_call, server_usb_init, Event.owner]

/-- The test `IS_VALID_LENGTH` holds exactly on the interval `[0, MAX_DATA)`. -/
theorem IS_VALID_LENGTH_iff (k : Consts) (length : Int) :
    IS_VALID_LENGTH k length = true ↔ 0 ≤ length ∧ length < k.LIBUSBIP_MAX_DATA := by
  simp [IS_VALID_LENGTH]

/-- The test `IS_VALID_LENGTH` fails exactly outside the interval `[0, MAX_DATA)`. -/
theorem IS_VALID_LENGTH_eq_false_iff (k : Consts) (length : Int) :
    IS_VALID_LENGTH k length = false ↔ ¬ (0 ≤ length ∧ length < k.LIBUSBIP_MAX_DATA) := by
  rw [← IS_VALID_LENGTH_iff]; simp

/-- C1: in the client role, with non-null ConnectionInfo, handle and buffer,
`libusbip_bulk_transfer` and `libusbip_get_string_descriptor_ascii` called with a
`length` outside `[0, MAX_DATA)`, and `libusbip_control_transfer` called with a
`len >= MAX_DATA`, return `FAILURE`; the only thing each does is to report
`error_illegal_length`, so neither a client path nor a server path is invoked. -/
theorem C1_invalid_length_rejected (k : Consts) (env : Env) (w : World)
    (c : libusbip_connection_info) (h : libusbip_device_handle)
    (endpoint idx req_type req val timeout len : Nat) (buf : List Nat)
    (data : Option (List Nat)) (transferred : Option Int) (length : Int)
    (hc : c.ctx = k.LIBUSBIP_CTX_CLIENT)
    (hlength : ¬ (0 ≤ length ∧ length < k.LIBUSBIP_MAX_DATA))
    (hlen : k.LIBUSBIP_MAX_DATA ≤ (len : Int)) :
    (libusbip_bulk_transfer k env (some c) (some h) endpoint data length transferred
          timeout w
        = (k.LIBUSBIP_E_FAILURE,
            report Diag.error_illegal_length Func.libusbip_bulk_transfer w)
      ∧ pathCalls w (libusbip_bulk_transfer k env (some c) (some h) endpoint data length
          transferred timeout w).2 = [])
    ∧ (libusbip_get_string_descriptor_ascii k env (some c) (some h) idx (some buf) length w
        = (k.LIBUSBIP_E_FAILURE,
            report Diag.error_illegal_length Func.libusbip_get_string_descriptor_ascii w)
      ∧ pathCalls w (libusbip_get_string_descriptor_ascii k env (some c) (some h) idx
          (some buf) length w).2 = [])
    ∧ (libusbip_control_transfer k env (some c) (some h) req_type req val idx data len
          timeout w
        = (k.LIBUSBIP_E_FAILURE,
            report Diag.error_illegal_length Func.libusbip_control_transfer w)
      ∧ pathCalls w (libusbip_control_transfer k env (some c) (some h) req_type req val idx
          data len timeout w).2 = []) := by
  have h1 : IS_VALID_LENGTH k length = false := (IS_VALID_LENGTH_eq_false_iff k length).2 hlength
  have h2 : IS_VALID_LENGTH k (len : Int) = false :=
    (IS_VALID_LENGTH_eq_false_iff k (len : Int)).2 (fun hh => absurd hlen (not_le.2 hh.2))
  simp [libusbip_bulk_transfer, libusbip_get_string_descriptor_ascii,
    libusbip_control_transfer, hc, h1, h2, pathCalls_report]

/-- C1, evaluated: a client-role bulk transfer of exactly `MAX_DATA` bytes, a
string descriptor request of length -1 and a control transfer with
`len = MAX_DATA` are all rejected. -/
theorem C1_invalid_length_rejected_witness :
    (ci_client.ctx = k0.LIBUSBIP_CTX_CLIENT
      ∧ ¬ (0 ≤ (4096 : Int) ∧ (4096 : Int) < k0.LIBUSBIP_MAX_DATA)
      ∧ k0.LIBUSBIP_MAX_DATA ≤ ((4096 : Nat) : Int))
    ∧ (libusbip_bulk_transfer k0 env0 (some ci_client) (some dh0) 129 (some []) 4096 (some 0)
          1000 w0).1 = k0.LIBUSBIP_E_FAILURE
    ∧ pathCalls w0 (libusbip_bulk_transfer k0 env0 (some ci_client) (some dh0) 129 (some [])
          4096 (some 0) 1000 w0).2 = [] :=
  ⟨by decide,
    ((C1_invalid_length_rejected k0 env0 w0 ci_client dh0 129 0 128 6 256 1000 4096 []
      (some []) (some 0) 4096 (by decide) (by decide) (by decide)).1.1 ▸ rfl),
    (C1_invalid_length_rejected k0 env0 w0 ci_client dh0 129 0 128 6 256 1000 4096 []
      (some []) (some 0) 4096 (by decide) (by decide) (by decide)).1.2⟩

/-- C2 as stated fails: for the recognised opcode `USB_EXIT` and a record whose role
is neither client nor server, `libusbip_rpc_call` returns `SUCCESS`, not `FAILURE`. -/
theorem C2_counterexample :
    LIBUSBIP_RPC_USB_EXIT ∈ rpc_cases
    ∧ (ri_of ci_bad).ci.ctx ≠ k0.LIBUSBIP_CTX_CLIENT
    ∧ (ri_of ci_bad).ci.ctx ≠ k0.LIBUSBIP_CTX_SERVER
    ∧ (libusbip_rpc_call k0 env0 LIBUSBIP_RPC_USB_EXIT (some (ri_of ci_bad)) w0).1
        = k0.LIBUSBIP_E_SUCCESS
    ∧ (libusbip_rpc_call k0 env0 LIBUSBIP_RPC_USB_EXIT (some (ri_of ci_bad)) w0).1
        ≠ k0.LIBUSBIP_E_FAILURE := by
  decide

/-- The case labels are the seventeen values 0 to 16. -/
theorem mem_rpc_cases (rpc : Int) :
    rpc ∈ rpc_cases ↔ rpc = 0 ∨ rpc = 1 ∨ rpc = 2 ∨ rpc = 3 ∨ rpc = 4 ∨ rpc = 5 ∨ rpc = 6
      ∨ rpc = 7 ∨ rpc = 8 ∨ rpc = 9 ∨ rpc = 10 ∨ rpc = 11 ∨ rpc = 12 ∨ rpc = 13 ∨ rpc = 14
      ∨ rpc = 15 ∨ rpc = 16 := by
  simp [rpc_cases, LIBUSBIP_RPC_USB_INIT, LIBUSBIP_RPC_USB_EXIT,
    LIBUSBIP_RPC_USB_GET_DEVICE_LIST, LIBUSBIP_RPC_USB_GET_DEVICE_DESCRIPTOR,
    LIBUSBIP_RPC_USB_OPEN, LIBUSBIP_RPC_USB_OPEN_DEVICE_WITH_VID_PID, LIBUSBIP_RPC_USB_CLOSE,
    LIBUSBIP_RPC_USB_CLAIM_INTERFACE, LIBUSBIP_RPC_USB_RELEASE_INTERFACE,
    LIBUSBIP_RPC_USB_GET_CONFIGURATION, LIBUSBIP_RPC_USB_SET_CONFIGURATION,
    LIBUSBIP_RPC_USB_SET_INTERFACE_ALT_SETTING, LIBUSBIP_RPC_USB_RESET_DEVICE,
    LIBUSBIP_RPC_USB_CLEAR_HALT, LIBUSBIP_RPC_USB_GET_STRING_DESCRIPTOR_ASCII,
    LIBUSBIP_RPC_USB_CONTROL_TRANSFER, LIBUSBIP_RPC_USB_BULK_TRANSFER]

/-- C2, amended: for every recognised opcode and every non-null record whose role
is neither client nor server, `libusbip_rpc_call` calls the entry the catalog
binds to the opcode, which only reports `error_illegal_libusbip_ctx_t`: no client
path and no server path is invoked.  The result is `FAILURE` when that entry
returns a value, and `SUCCESS` when the entry is `void` (exit, get_device_list,
open_device_with_vid_pid, close). -/
theorem C2_unrecognised_role (k : Consts) (env : Env) (w : World) (rpc : Int)
    (r : libusbip_rpc_info) (hrpc : rpc ∈ rpc_cases)
    (hnc : r.ci.ctx ≠ k.LIBUSBIP_CTX_CLIENT) (hns : r.ci.ctx ≠ k.LIBUSBIP_CTX_SERVER) :
    ∃ c, catalog_call rpc r = some c
      ∧ libusbip_rpc_call k env rpc (some r) w
          = (if c.func.isVoid then k.LIBUSBIP_E_SUCCESS else k.LIBUSBIP_E_FAILURE,
              report Diag.error_illegal_libusbip_ctx_t c.func w)
      ∧ pathCalls w (libusbip_rpc_call k env rpc (some r) w).2 = [] := by
  rw [mem_rpc_cases] at hrpc
  rcases hrpc with h | h | h | h | h | h | h | h | h | h | h | h | h | h | h | h | h <;>
    subst h <;>
    simp [catalog_call, libusbip_rpc_call, LIBUSBIP_RPC_USB_INIT, LIBUSBIP_RPC_USB_EXIT,
    LIBUSBIP_RPC_USB_GET_DEVICE_LIST, LIBUSBIP_RPC_USB_GET_DEVICE_DESCRIPTOR,
    LIBUSBIP_RPC_USB_OPEN, LIBUSBIP_RPC_USB_OPEN_DEVICE_WITH_VID_PID, LIBUSBIP_RPC_USB_CLOSE,
    LIBUSBIP_RPC_USB_CLAIM_INTERFACE, LIBUSBIP_RPC_USB_RELEASE_INTERFACE,
    LIBUSBIP_RPC_USB_GET_CONFIGURATION, LIBUSBIP_RPC_USB_SET_CONFIGURATION,
    LIBUSBIP_RPC_USB_SET_INTERFACE_ALT_SETTING, LIBUSBIP_RPC_USB_RESET_DEVICE,
    LIBUSBIP_RPC_USB_CLEAR_HALT, LIBUSBIP_RPC_USB_GET_STRING_DESCRIPTOR_ASCII,
    LIBUSBIP_RPC_USB_CONTROL_TRANSFER, LIBUSBIP_RPC_USB_BULK_TRANSFER,
      libusbip_init, libusbip_exit,
    libusbip_get_device_list, libusbip_get_device_descriptor, libusbip_open,
    libusbip_open_device_with_vid_pid, libusbip_close, libusbip_claim_interface,
    libusbip_release_interface, libusbip_get_configuration, libusbip_set_configuration,
    libusbip_set_interface_alt_setting, libusbip_reset_device, libusbip_clear_halt,
    libusbip_get_string_descriptor_ascii, libusbip_control_transfer,
    libusbip_bulk_transfer, hnc, hns, EntryCall.func, Func.isVoid,
      pathCalls_report]

/-- C2 amended, evaluated on a record of unrecognised role: `USB_CLAIM_INTERFACE`
yields `FAILURE` after the single diagnostic of `libusbip_claim_interface`. -/
theorem C2_unrecognised_role_witness :
    (LIBUSBIP_RPC_USB_CLAIM_INTERFACE ∈ rpc_cases
      ∧ (ri_of ci_bad).ci.ctx ≠ k0.LIBUSBIP_CTX_CLIENT
      ∧ (ri_of ci_bad).ci.ctx ≠ k0.LIBUSBIP_CTX_SERVER)
    ∧ libusbip_rpc_call k0 env0 LIBUSBIP_RPC_USB_CLAIM_INTERFACE (some (ri_of ci_bad)) w0
        = (k0.LIBUSBIP_E_FAILURE,
            report Diag.error_illegal_libusbip_ctx_t Func.libusbip_claim_interface w0)
    ∧ pathCalls w0
        (libusbip_rpc_call k0 env0 LIBUSBIP_RPC_USB_CLAIM_INTERFACE (some (ri_of ci_bad))
          w0).2 = [] := by
  refine ⟨by decide, ?_⟩
  obtain ⟨c, hc, hres, hp⟩ :=
    C2_unrecognised_role k0 env0 w0 LIBUSBIP_RPC_USB_CLAIM_INTERFACE (ri_of ci_bad)
      (by decide) (by decide) (by decide)
  have hc2 : c = EntryCall.libusbip_claim_interface (some ci_bad) (some dh0) 0 :=
    Option.some.inj (hc.symm.trans (by decide))
  subst hc2
  exact ⟨hres, hp⟩

/-- C3: for every operation entry point and whatever the role, if the
ConnectionInfo pointer, or a device list, device, device handle or device
descriptor pointer of the call, or the data buffer of
`libusbip_get_string_descriptor_ascii`, is null, then the entry does exactly one
thing, which is neither a client path nor a server path call (it is a diagnostic
of that entry), `libusbip_ctx` is untouched, and an entry that returns a value
returns `FAILURE`.  The ConnectionInfo is tested first: when it is null the
diagnostic is `error_illegal_libusbip_connection_info`, whatever the other
arguments, and the role is not read. -/
theorem C3_null_pointer_rejected (k : Consts) (env : Env) (w : World) (c : EntryCall)
    (hnull : c.ci = none ∨ c.subRecordNull = true) :
    (∃ e, (c.run k env w).2.trace = w.trace ++ [e] ∧ e.isPath = false ∧ e.owner = c.func)
    ∧ pathCalls w (c.run k env w).2 = []
    ∧ (c.run k env w).2.libusbip_ctx = w.libusbip_ctx
    ∧ (c.run k env w).1 = (if c.func.isVoid then none else some k.LIBUSBIP_E_FAILURE)
    ∧ (c.ci = none →
        (c.run k env w).2 = report Diag.error_illegal_libusbip_connection_info c.func w) := by
  cases c <;>
    simp only [EntryCall.run, EntryCall.func, EntryCall.ci, EntryCall.subRecordNull,
      libusbip_init, libusbip_exit,
      libusbip_get_device_list, libusbip_get_device_descriptor, libusbip_open,
      libusbip_open_device_with_vid_pid, libusbip_close, libusbip_claim_interface,
      libusbip_release_interface, libusbip_get_configuration, libusbip_set_configuration,
      libusbip_set_interface_alt_setting, libusbip_reset_device, libusbip_clear_halt,
      libusbip_get_string_descriptor_ascii, libusbip_control_transfer,
      libusbip_bulk_transfer] at hnull ⊢ <;>
    (repeat' split) <;>
    simp_all [report, World.log, pathCalls, newEvents, Event.isPath, Event.isClient,
      Event.isServer, Event.owner, Func.isVoid]

/-- C3, evaluated: `libusbip_open` with a null device handle in the server role. -/
theorem C3_null_pointer_rejected_witness :
    ((EntryCall.libusbip_open (some ci_server) (some (libusbip_device.mk 0)) none).ci = none
      ∨ (EntryCall.libusbip_open (some ci_server) (some (libusbip_device.mk 0))
          none).subRecordNull = true)
    ∧ pathCalls w0 ((EntryCall.libusbip_open (some ci_server) (some (libusbip_device.mk 0))
        none).run k0 env0 w0).2 = []
    ∧ ((EntryCall.libusbip_open (some ci_server) (some (libusbip_device.mk 0))
        none).run k0 env0 w0).1 = some k0.LIBUSBIP_E_FAILURE :=
  ⟨Or.inr (by decide),
    (C3_null_pointer_rejected k0 env0 w0
      (EntryCall.libusbip_open (some ci_server) (some (libusbip_device.mk 0)) none)
      (Or.inr (by decide))).2.1,
    (C3_null_pointer_rejected k0 env0 w0
      (EntryCall.libusbip_open (some ci_server) (some (libusbip_device.mk 0)) none)
      (Or.inr (by decide))).2.2.2.1⟩

/-- The `default` case: for a value that is no case label, `libusbip_rpc_call` on a
non-null record reports `error_illegal_libusbip_rpc_t` and returns `FAILURE`. -/
theorem rpc_call_default (k : Consts) (env : Env) (w : World) (rpc : Int)
    (r : libusbip_rpc_info) (hrpc : rpc ∉ rpc_cases) :
    libusbip_rpc_call k env rpc (some r) w
      = (k.LIBUSBIP_E_FAILURE,
          report Diag.error_illegal_libusbip_rpc_t Func.libusbip_rpc_call w) := by
  simp only [rpc_cases, List.mem_cons, List.mem_singleton, not_or, List.not_mem_nil,
    or_false] at hrpc
  obtain ⟨h0, h1, h2, h3, h4, h5, h6, h7, h8, h9, h10, h11, h12, h13, h14, h15, h16⟩ := hrpc
  simp [libusbip_rpc_call, h0, h1, h2, h3, h4, h5, h6, h7, h8, h9, h10, h11, h12, h13, h14,
    h15, h16]

/-- C4: with an opcode outside the case labels, `libusbip_rpc_call` on a non-null
record returns `FAILURE` whatever the record holds; with a null record it returns
`FAILURE` for every opcode.  In both cases the only thing done is one diagnostic
of `libusbip_rpc_call` itself (`error_illegal_libusbip_rpc_t`, respectively
`error_illegal_libusbip_rpc_info`): no operation entry, client path or server path
is invoked. -/
theorem C4_illegal_opcode_or_null_record (k : Consts) (env : Env) (w : World)
    (rpc anyrpc : Int) (r : libusbip_rpc_info) (hrpc : rpc ∉ rpc_cases) :
    (libusbip_rpc_call k env rpc (some r) w
        = (k.LIBUSBIP_E_FAILURE,
            report Diag.error_illegal_libusbip_rpc_t Func.libusbip_rpc_call w)
      ∧ pathCalls w (libusbip_rpc_call k env rpc (some r) w).2 = []
      ∧ ∀ e ∈ newEvents w (libusbip_rpc_call k env rpc (some r) w).2,
          e.owner = Func.libusbip_rpc_call)
    ∧ (libusbip_rpc_call k env anyrpc none w
        = (k.LIBUSBIP_E_FAILURE,
            report Diag.error_illegal_libusbip_rpc_info Func.libusbip_rpc_call w)
      ∧ pathCalls w (libusbip_rpc_call k env anyrpc none w).2 = []
      ∧ ∀ e ∈ newEvents w (libusbip_rpc_call k env anyrpc none w).2,
          e.owner = Func.libusbip_rpc_call) := by
  have hres := rpc_call_default k env w rpc r hrpc
  have hnone : libusbip_rpc_call k env anyrpc none w
      = (k.LIBUSBIP_E_FAILURE,
          report Diag.error_illegal_libusbip_rpc_info Func.libusbip_rpc_call w) := rfl
  rw [hres, hnone]
  simp [pathCalls_report, newEvents_report, Event.owner]

/-- C4, evaluated: opcode 17 on a client-role record, and `USB_INIT` on a null
record. -/
theorem C4_illegal_opcode_or_null_record_witness :
    (17 : Int) ∉ rpc_cases
    ∧ (libusbip_rpc_call k0 env0 17 (some (ri_of ci_client)) w0).1 = k0.LIBUSBIP_E_FAILURE
    ∧ (libusbip_rpc_call k0 env0 LIBUSBIP_RPC_USB_INIT none w0).1 = k0.LIBUSBIP_E_FAILURE :=
  ⟨by decide,
    congrArg Prod.fst (C4_illegal_opcode_or_null_record k0 env0 w0 17 LIBUSBIP_RPC_USB_INIT
      (ri_of ci_client) (by decide)).1.1,
    congrArg Prod.fst (C4_illegal_opcode_or_null_record k0 env0 w0 17 LIBUSBIP_RPC_USB_INIT
      (ri_of ci_client) (by decide)).2.1⟩

/-- A logged client call is one client call and no server call. -/
theorem calls_log_client (w : World) (cc : ClientCall) :
    clientCalls w (w.log (Event.client cc)) = [Event.client cc]
    ∧ serverCalls w (w.log (Event.client cc)) = [] := by
  simp [clientCalls, serverCalls, newEvents_log, Event.isClient, Event.isServer]

/-- Packaging of the conclusion of C5 from the equation for the call. -/
theorem client_dispatch_intro (k : Consts) (env : Env) (w : World) (c : EntryCall)
    (cc : ClientCall) (h1 : c.clientCall = some cc)
    (h2 : c.run k env w = (some (env.client_ret w.trace cc), w.log (Event.client cc))) :
    ∃ cc, c.clientCall = some cc
      ∧ c.run k env w = (some (env.client_ret w.trace cc), w.log (Event.client cc))
      ∧ clientCalls w (c.run k env w).2 = [Event.client cc]
      ∧ serverCalls w (c.run k env w).2 = [] := by
  refine ⟨cc, h1, h2, ?_, ?_⟩
  · rw [h2]; exact (calls_log_client w cc).1
  · rw [h2]; exact (calls_log_client w cc).2

/-- C5: for every entry that returns a status (init, get_device_descriptor, open,
claim_interface, release_interface, get_configuration, set_configuration,
set_interface_alt_setting, reset_device, clear_halt, get_string_descriptor_ascii),
when the role is `CLIENT`, the checked pointers are non-null and the length (for
get_string_descriptor_ascii) lies in `[0, MAX_DATA)`, the entry makes exactly one
call, the matching client function on the caller's own arguments; it makes no
server call, leaves `libusbip_ctx` alone, and returns what that client call
returned. -/
theorem C5_client_status_passthrough (k : Consts) (env : Env) (w : World) (c : EntryCall)
    (ci : libusbip_connection_info)
    (hstatus : c.func.isVoid = false ∧ c.func.isTransfer = false)
    (hci : c.ci = some ci) (hrole : ci.ctx = k.LIBUSBIP_CTX_CLIENT)
    (hsub : c.subRecordNull = false)
    (hlen : ∀ l, c.lengthArg = some l → 0 ≤ l ∧ l < k.LIBUSBIP_MAX_DATA) :
    ∃ cc, c.clientCall = some cc
      ∧ c.run k env w = (some (env.client_ret w.trace cc), w.log (Event.client cc))
      ∧ clientCalls w (c.run k env w).2 = [Event.client cc]
      ∧ serverCalls w (c.run k env w).2 = [] := by
  cases c with
  | libusbip_get_string_descriptor_ascii oc dh idx data length =>
    have hv : IS_VALID_LENGTH k length = true :=
      (IS_VALID_LENGTH_iff k length).2 (hlen length rfl)
    cases dh <;> cases data <;>
      simp_all [EntryCall.ci, EntryCall.subRecordNull]
    exact client_dispatch_intro k env w _ _ rfl (by
      simp [EntryCall.run, libusbip_get_string_descriptor_ascii, hrole, hv, client_call])
  | libusbip_init oc =>
    simp only [EntryCall.ci] at hci
    subst hci
    exact client_dispatch_intro k env w _ _ rfl (by simp [EntryCall.run, libusbip_init, hrole, client_call])
  | libusbip_get_device_descriptor oc dev dd =>
    cases dev <;> cases dd <;> simp_all [EntryCall.ci, EntryCall.subRecordNull]
    exact client_dispatch_intro k env w _ _ rfl (by
      simp [EntryCall.run, libusbip_get_device_descriptor, hrole, client_call])
  | libusbip_open oc dev dh =>
    cases dev <;> cases dh <;> simp_all [EntryCall.ci, EntryCall.subRecordNull]
    exact client_dispatch_intro k env w _ _ rfl (by simp [EntryCall.run, libusbip_open, hrole, client_call])
  | libusbip_claim_interface oc dh intf =>
    cases dh <;> simp_all [EntryCall.ci, EntryCall.subRecordNull]
    exact client_dispatch_intro k env w _ _ rfl (by simp [EntryCall.run, libusbip_claim_interface, hrole, client_call])
  | libusbip_release_interface oc dh intf =>
    cases dh <;> simp_all [EntryCall.ci, EntryCall.subRecordNull]
    exact client_dispatch_intro k env w _ _ rfl (by
      simp [EntryCall.run, libusbip_release_interface, hrole, client_call])
  | libusbip_get_configuration oc dh conf =>
    cases dh <;> simp_all [EntryCall.ci, EntryCall.subRecordNull]
    exact client_dispatch_intro k env w _ _ rfl (by
      simp [EntryCall.run, libusbip_get_configuration, hrole, client_call])
  | libusbip_set_configuration oc dh conf =>
    cases dh <;> simp_all [EntryCall.ci, EntryCall.subRecordNull]
    exact client_dispatch_intro k env w _ _ rfl (by
      simp [EntryCall.run, libusbip_set_configuration, hrole, client_call])
  | libusbip_set_interface_alt_setting oc dh intf alt_setting =>
    cases dh <;> simp_all [EntryCall.ci, EntryCall.subRecordNull]
    exact client_dispatch_intro k env w _ _ rfl (by
      simp [EntryCall.run, libusbip_set_interface_alt_setting, hrole, client_call])
  | libusbip_reset_device oc dh =>
    cases dh <;> simp_all [EntryCall.ci, EntryCall.subRecordNull]
    exact client_dispatch_intro k env w _ _ rfl (by simp [EntryCall.run, libusbip_reset_device, hrole, client_call])
  | libusbip_clear_halt oc dh endpoint =>
    cases dh <;> simp_all [EntryCall.ci, EntryCall.subRecordNull]
    exact client_dispatch_intro k env w _ _ rfl (by simp [EntryCall.run, libusbip_clear_halt, hrole, client_call])
  | libusbip_exit oc => simp [EntryCall.func, Func.isVoid] at hstatus
  | libusbip_get_device_list oc dl => simp [EntryCall.func, Func.isVoid] at hstatus
  | libusbip_open_device_with_vid_pid oc dh vid pid =>
    simp [EntryCall.func, Func.isVoid] at hstatus
  | libusbip_close oc dh => simp [EntryCall.func, Func.isVoid] at hstatus
  | libusbip_control_transfer oc dh req_type req val idx data len timeout =>
    simp [EntryCall.func, Func.isTransfer] at hstatus
  | libusbip_bulk_transfer oc dh endpoint data length transferred timeout =>
    simp [EntryCall.func, Func.isTransfer] at hstatus

/-- C5, evaluated: a client-role string descriptor request of length 18 calls
`client_usb_get_string_descriptor_ascii` once and returns its result (18). -/
theorem C5_client_status_passthrough_witness :
    (((EntryCall.libusbip_get_string_descriptor_ascii (some ci_client) (some dh0) 2 (some [])
          18).func.isVoid = false
        ∧ (EntryCall.libusbip_get_string_descriptor_ascii (some ci_client) (some dh0) 2
          (some []) 18).func.isTransfer = false)
      ∧ ci_client.ctx = k0.LIBUSBIP_CTX_CLIENT
      ∧ (EntryCall.libusbip_get_string_descriptor_ascii (some ci_client) (some dh0) 2
          (some []) 18).subRecordNull = false
      ∧ (EntryCall.libusbip_get_string_descriptor_ascii (some ci_client) (some dh0) 2
          (some []) 18).lengthArg = some 18
      ∧ (0 : Int) ≤ 18 ∧ (18 : Int) < k0.LIBUSBIP_MAX_DATA)
    ∧ (EntryCall.libusbip_get_string_descriptor_ascii (some ci_client) (some dh0) 2 (some [])
          18).run k0 env0 w0
        = (some 18, w0.log (Event.client
            (ClientCall.client_usb_get_string_descriptor_ascii ci_client dh0 2 [] 18))) := by
  refine ⟨by decide, ?_⟩
  obtain ⟨cc, h1, h2, _, _⟩ :=
    C5_client_status_passthrough k0 env0 w0
      (EntryCall.libusbip_get_string_descriptor_ascii (some ci_client) (some dh0) 2 (some [])
        18) ci_client (by decide) rfl (by decide) (by decide)
      (fun l hl => by
        have h18 : l = 18 := (Option.some.inj hl).symm
        subst h18
        decide)
  have hcc : cc = ClientCall.client_usb_get_string_descriptor_ascii ci_client dh0 2 [] 18 :=
    Option.some.inj (h1.symm.trans rfl)
  subst hcc
  exact h2

/-- C6: for a record in the client role, `libusbip_rpc_call` on
`USB_CONTROL_TRANSFER` with `len` in `[0, MAX_DATA)`, and on `USB_BULK_TRANSFER`
with `length` in `[0, MAX_DATA)`, makes the one call of the client transfer
function on the fields of the record and returns the very integer that call
returned, whatever it is.  Each opcode depends on its own length field only:
`length` is free for the control transfer and `len` is free for the bulk
transfer. -/
theorem C6_transfer_count_passthrough (k : Consts) (env : Env) (w : World)
    (r : libusbip_rpc_info) (hc : r.ci.ctx = k.LIBUSBIP_CTX_CLIENT) :
    ((0 : Int) ≤ (r.len : Int) ∧ (r.len : Int) < k.LIBUSBIP_MAX_DATA →
      libusbip_rpc_call k env LIBUSBIP_RPC_USB_CONTROL_TRANSFER (some r) w
        = (env.client_ret w.trace
              (ClientCall.client_usb_control_transfer r.ci r.dh r.req_type r.req r.val r.idx
                (some r.data) r.len r.timeout),
            w.log (Event.client
              (ClientCall.client_usb_control_transfer r.ci r.dh r.req_type r.req r.val r.idx
                (some r.data) r.len r.timeout))))
    ∧ (0 ≤ r.length ∧ r.length < k.LIBUSBIP_MAX_DATA →
      libusbip_rpc_call k env LIBUSBIP_RPC_USB_BULK_TRANSFER (some r) w
        = (env.client_ret w.trace
              (ClientCall.client_usb_bulk_transfer r.ci r.dh r.endpoint (some r.data) r.length
                (some r.transferred) r.timeout),
            w.log (Event.client
              (ClientCall.client_usb_bulk_transfer r.ci r.dh r.endpoint (some r.data) r.length
                (some r.transferred) r.timeout)))) := by
  constructor
  · intro hlen
    have h1 : IS_VALID_LENGTH k (r.len : Int) = true := (IS_VALID_LENGTH_iff k _).2 hlen
    simp [libusbip_rpc_call, LIBUSBIP_RPC_USB_INIT, LIBUSBIP_RPC_USB_EXIT,
    LIBUSBIP_RPC_USB_GET_DEVICE_LIST, LIBUSBIP_RPC_USB_GET_DEVICE_DESCRIPTOR,
    LIBUSBIP_RPC_USB_OPEN, LIBUSBIP_RPC_USB_OPEN_DEVICE_WITH_VID_PID, LIBUSBIP_RPC_USB_CLOSE,
    LIBUSBIP_RPC_USB_CLAIM_INTERFACE, LIBUSBIP_RPC_USB_RELEASE_INTERFACE,
    LIBUSBIP_RPC_USB_GET_CONFIGURATION, LIBUSBIP_RPC_USB_SET_CONFIGURATION,
    LIBUSBIP_RPC_USB_SET_INTERFACE_ALT_SETTING, LIBUSBIP_RPC_USB_RESET_DEVICE,
    LIBUSBIP_RPC_USB_CLEAR_HALT, LIBUSBIP_RPC_USB_GET_STRING_DESCRIPTOR_ASCII,
    LIBUSBIP_RPC_USB_CONTROL_TRANSFER, LIBUSBIP_RPC_USB_BULK_TRANSFER,
      libusbip_control_transfer, hc, h1, client_call]
  · intro hlength
    have h2 : IS_VALID_LENGTH k r.length = true := (IS_VALID_LENGTH_iff k _).2 hlength
    simp [libusbip_rpc_call, LIBUSBIP_RPC_USB_INIT, LIBUSBIP_RPC_USB_EXIT,
    LIBUSBIP_RPC_USB_GET_DEVICE_LIST, LIBUSBIP_RPC_USB_GET_DEVICE_DESCRIPTOR,
    LIBUSBIP_RPC_USB_OPEN, LIBUSBIP_RPC_USB_OPEN_DEVICE_WITH_VID_PID, LIBUSBIP_RPC_USB_CLOSE,
    LIBUSBIP_RPC_USB_CLAIM_INTERFACE, LIBUSBIP_RPC_USB_RELEASE_INTERFACE,
    LIBUSBIP_RPC_USB_GET_CONFIGURATION, LIBUSBIP_RPC_USB_SET_CONFIGURATION,
    LIBUSBIP_RPC_USB_SET_INTERFACE_ALT_SETTING, LIBUSBIP_RPC_USB_RESET_DEVICE,
    LIBUSBIP_RPC_USB_CLEAR_HALT, LIBUSBIP_RPC_USB_GET_STRING_DESCRIPTOR_ASCII,
    LIBUSBIP_RPC_USB_CONTROL_TRANSFER, LIBUSBIP_RPC_USB_BULK_TRANSFER,
      libusbip_bulk_transfer, hc, h2, client_call]

/-- C6, evaluated: with a client transfer function that returns 18, which is
neither `SUCCESS` nor `FAILURE`, a control transfer on a record with `len = 18`
and `length = -1`, and a bulk transfer on a record with `length = 18` and
`len = 4096`, both return 18. -/
theorem C6_transfer_count_passthrough_witness :
    (ri_len_only.ci.ctx = k0.LIBUSBIP_CTX_CLIENT
      ∧ ((0 : Int) ≤ (ri_len_only.len : Int)
        ∧ (ri_len_only.len : Int) < k0.LIBUSBIP_MAX_DATA)
      ∧ ¬ (0 ≤ ri_len_only.length ∧ ri_len_only.length < k0.LIBUSBIP_MAX_DATA)
      ∧ ri_length_only.ci.ctx = k0.LIBUSBIP_CTX_CLIENT
      ∧ (0 ≤ ri_length_only.length ∧ ri_length_only.length < k0.LIBUSBIP_MAX_DATA)
      ∧ ¬ ((ri_length_only.len : Int) < k0.LIBUSBIP_MAX_DATA))
    ∧ (libusbip_rpc_call k0 env0 LIBUSBIP_RPC_USB_CONTROL_TRANSFER (some ri_len_only)
        w0).1 = 18
    ∧ (libusbip_rpc_call k0 env0 LIBUSBIP_RPC_USB_BULK_TRANSFER (some ri_length_only)
        w0).1 = 18
    ∧ (18 : Int) ≠ k0.LIBUSBIP_E_SUCCESS ∧ (18 : Int) ≠ k0.LIBUSBIP_E_FAILURE :=
  ⟨by decide,
    congrArg Prod.fst
      ((C6_transfer_count_passthrough k0 env0 w0 ri_len_only (by decide)).1 (by decide)),
    congrArg Prod.fst
      ((C6_transfer_count_passthrough k0 env0 w0 ri_length_only (by decide)).2 (by decide)),
    by decide, by decide⟩

/-- On a recognised opcode, `libusbip_rpc_call` does what the entry bound to the
opcode by the catalog does on the catalog's fields of the record, and returns the
result of a value-returning entry (`SUCCESS` after a `void` entry). -/
theorem rpc_call_eq_catalog (k : Consts) (env : Env) (w : World) (rpc : Int)
    (r : libusbip_rpc_info) (hrpc : rpc ∈ rpc_cases) :
    ∃ c, catalog_call rpc r = some c
      ∧ (libusbip_rpc_call k env rpc (some r) w).2 = (c.run k env w).2
      ∧ (libusbip_rpc_call k env rpc (some r) w).1
          = ((c.run k env w).1).getD k.LIBUSBIP_E_SUCCESS
      ∧ ((c.run k env w).1 = none ↔ c.func.isVoid = true)
      ∧ c.func.opcode = rpc ∧ c.func ≠ Func.libusbip_rpc_call := by
  rw [mem_rpc_cases] at hrpc
  rcases hrpc with h | h | h | h | h | h | h | h | h | h | h | h | h | h | h | h | h <;>
    subst h <;>
    simp [catalog_call, libusbip_rpc_call, Func.opcode, LIBUSBIP_RPC_USB_INIT, LIBUSBIP_RPC_USB_EXIT,
    LIBUSBIP_RPC_USB_GET_DEVICE_LIST, LIBUSBIP_RPC_USB_GET_DEVICE_DESCRIPTOR,
    LIBUSBIP_RPC_USB_OPEN, LIBUSBIP_RPC_USB_OPEN_DEVICE_WITH_VID_PID, LIBUSBIP_RPC_USB_CLOSE,
    LIBUSBIP_RPC_USB_CLAIM_INTERFACE, LIBUSBIP_RPC_USB_RELEASE_INTERFACE,
    LIBUSBIP_RPC_USB_GET_CONFIGURATION, LIBUSBIP_RPC_USB_SET_CONFIGURATION,
    LIBUSBIP_RPC_USB_SET_INTERFACE_ALT_SETTING, LIBUSBIP_RPC_USB_RESET_DEVICE,
    LIBUSBIP_RPC_USB_CLEAR_HALT, LIBUSBIP_RPC_USB_GET_STRING_DESCRIPTOR_ASCII,
    LIBUSBIP_RPC_USB_CONTROL_TRANSFER, LIBUSBIP_RPC_USB_BULK_TRANSFER,
      EntryCall.run, EntryCall.func, Func.isVoid]

/-- C7: for every recognised opcode and non-null record, `libusbip_rpc_call`
invokes exactly one operation entry, the one the catalog binds to the opcode, on
the ConnectionInfo of the record and the record fields of the catalog row: the
world after the call is the world after that entry, the single new event
belongs to that entry, the result is the entry's result when the entry returns a
value (`SUCCESS` when it is `void`), and a record that differs only in fields
outside the catalog row gives the same result and the same calls. -/
theorem C7_rpc_call_follows_catalog (k : Consts) (env : Env) (w : World) (rpc : Int)
    (r r2 : libusbip_rpc_info) (hrpc : rpc ∈ rpc_cases) (hci : r2.ci = r.ci)
    (hsame : ∀ f ∈ catalog_fields rpc, f.same r r2 = true) :
    (∃ c, catalog_call rpc r = some c
      ∧ (libusbip_rpc_call k env rpc (some r) w).2 = (c.run k env w).2
      ∧ (∃ e, (libusbip_rpc_call k env rpc (some r) w).2.trace = w.trace ++ [e]
          ∧ e.owner = c.func)
      ∧ (libusbip_rpc_call k env rpc (some r) w).1
          = ((c.run k env w).1).getD k.LIBUSBIP_E_SUCCESS
      ∧ ((c.run k env w).1 = none ↔ c.func.isVoid = true))
    ∧ libusbip_rpc_call k env rpc (some r2) w = libusbip_rpc_call k env rpc (some r) w := by
  constructor
  · obtain ⟨c, h1, h2, h3, h4, _, _⟩ := rpc_call_eq_catalog k env w rpc r hrpc
    refine ⟨c, h1, h2, ?_, h3, h4⟩
    rw [h2]
    exact entry_logs_one_event k env c w
  · rw [mem_rpc_cases] at hrpc
    rcases hrpc with h | h | h | h | h | h | h | h | h | h | h | h | h | h | h | h | h <;>
      subst h <;>
      simp_all [catalog_fields, Field.same, libusbip_rpc_call, LIBUSBIP_RPC_USB_INIT, LIBUSBIP_RPC_USB_EXIT,
    LIBUSBIP_RPC_USB_GET_DEVICE_LIST, LIBUSBIP_RPC_USB_GET_DEVICE_DESCRIPTOR,
    LIBUSBIP_RPC_USB_OPEN, LIBUSBIP_RPC_USB_OPEN_DEVICE_WITH_VID_PID, LIBUSBIP_RPC_USB_CLOSE,
    LIBUSBIP_RPC_USB_CLAIM_INTERFACE, LIBUSBIP_RPC_USB_RELEASE_INTERFACE,
    LIBUSBIP_RPC_USB_GET_CONFIGURATION, LIBUSBIP_RPC_USB_SET_CONFIGURATION,
    LIBUSBIP_RPC_USB_SET_INTERFACE_ALT_SETTING, LIBUSBIP_RPC_USB_RESET_DEVICE,
    LIBUSBIP_RPC_USB_CLEAR_HALT, LIBUSBIP_RPC_USB_GET_STRING_DESCRIPTOR_ASCII,
    LIBUSBIP_RPC_USB_CONTROL_TRANSFER, LIBUSBIP_RPC_USB_BULK_TRANSFER]

/-- C7, evaluated: on `USB_CLAIM_INTERFACE`, two client-role records that differ
in `vid`, `pid` and `conf` only give the same result and the same calls. -/
theorem C7_rpc_call_follows_catalog_witness :
    (LIBUSBIP_RPC_USB_CLAIM_INTERFACE ∈ rpc_cases
      ∧ ri_other.ci = (ri_of ci_client).ci
      ∧ catalog_fields LIBUSBIP_RPC_USB_CLAIM_INTERFACE = [Field.dh, Field.intf]
      ∧ Field.dh.same (ri_of ci_client) ri_other = true
      ∧ Field.intf.same (ri_of ci_client) ri_other = true)
    ∧ libusbip_rpc_call k0 env0 LIBUSBIP_RPC_USB_CLAIM_INTERFACE (some ri_other) w0
        = libusbip_rpc_call k0 env0 LIBUSBIP_RPC_USB_CLAIM_INTERFACE
            (some (ri_of ci_client)) w0 :=
  ⟨by decide,
    (C7_rpc_call_follows_catalog k0 env0 w0 LIBUSBIP_RPC_USB_CLAIM_INTERFACE (ri_of ci_client)
      ri_other (by decide) (by decide) (by decide)).2⟩

/-- C8 as stated fails: after `libusbip_exit` on a server-role ConnectionInfo,
`libusbip_claim_interface` on the same ConnectionInfo returns `SUCCESS`, not
`FAILURE`, and invokes the server path `server_usb_claim_interface`. -/
theorem C8_counterexample :
    (libusbip_claim_interface k0 env0 (some ci_server) (some dh0) 0
        (libusbip_exit k0 env0 (some ci_server) w0)).1 = k0.LIBUSBIP_E_SUCCESS
    ∧ (libusbip_claim_interface k0 env0 (some ci_server) (some dh0) 0
        (libusbip_exit k0 env0 (some ci_server) w0)).1 ≠ k0.LIBUSBIP_E_FAILURE
    ∧ pathCalls (libusbip_exit k0 env0 (some ci_server) w0)
        (libusbip_claim_interface k0 env0 (some ci_server) (some dh0) 0
          (libusbip_exit k0 env0 (some ci_server) w0)).2
        = [Event.server (ServerCall.server_usb_claim_interface ci_server)] := by
  decide

/-- C9 as stated fails: the second `libusbip_init` on a server-role ConnectionInfo
runs the server init handler again, on the context the first call left in
`libusbip_ctx`. -/
theorem C9_counterexample :
    (libusbip_init k0 env0 (some ci_server) w0).1 = k0.LIBUSBIP_E_SUCCESS
    ∧ (libusbip_init k0 env0 (some ci_server)
        (libusbip_init k0 env0 (some ci_server) w0).2).1 = k0.LIBUSBIP_E_SUCCESS
    ∧ serverCalls (libusbip_init k0 env0 (some ci_server) w0).2
        (libusbip_init k0 env0 (some ci_server)
          (libusbip_init k0 env0 (some ci_server) w0).2).2
        = [Event.server (ServerCall.server_usb_init ci_server 1)]
    ∧ (libusbip_init k0 env0 (some ci_server)
        (libusbip_init k0 env0 (some ci_server) w0).2).2.trace
        = [Event.server (ServerCall.server_usb_init ci_server 0),
           Event.server (ServerCall.server_usb_init ci_server 1)] := by
  decide

/-- C10 as stated fails: `libusbip_rpc_call` recognises seventeen opcode values, not
sixteen; the value 16 (`USB_BULK_TRANSFER`) is recognised besides the sixteen
values 0 to 15. -/
theorem C10_counterexample :
    recognised_below k0 env0 (ri_of ci_client) w0 40
        = [0, 1, 2, 3, 4, 5, 6, 7, 8, 9, 10, 11, 12, 13, 14, 15, 16]
    ∧ (recognised_below k0 env0 (ri_of ci_client) w0 40).length = 17
    ∧ (recognised_below k0 env0 (ri_of ci_client) w0 40).length ≠ 16 := by
  decide

/-- A logged path call is the one path call made. -/
theorem pathCalls_log_client (w : World) (cc : ClientCall) :
    pathCalls w (w.log (Event.client cc)) = [Event.client cc] := by
  simp [pathCalls, newEvents_log, Event.isPath, Event.isClient]

/-- A logged server call is the one path call made. -/
theorem pathCalls_log_server (w : World) (sc : ServerCall) :
    pathCalls w (w.log (Event.server sc)) = [Event.server sc] := by
  simp [pathCalls, newEvents_log, Event.isPath, Event.isClient, Event.isServer]

/-- Client dispatch: in the client role, with valid pointers and a valid length,
every entry calls its client function once on the caller's arguments, and an
entry that returns a value returns the value of that call. -/
theorem dispatch_client (k : Consts) (env : Env) (w : World) (c : EntryCall)
    (ci : libusbip_connection_info) (hci : c.ci = some ci)
    (hrole : ci.ctx = k.LIBUSBIP_CTX_CLIENT) (hsub : c.subRecordNull = false)
    (hlen : ∀ l, c.lengthArg = some l → 0 ≤ l ∧ l < k.LIBUSBIP_MAX_DATA) :
    ∃ cc, c.clientCall = some cc
      ∧ c.run k env w
        = (if c.func.isVoid then none else some (env.client_ret w.trace cc),
            w.log (Event.client cc)) := by
  have hv : ∀ l, c.lengthArg = some l → IS_VALID_LENGTH k l = true :=
    fun l hl => (IS_VALID_LENGTH_iff k l).2 (hlen l hl)
  clear hlen
  cases c <;>
    simp only [EntryCall.ci, EntryCall.subRecordNull, EntryCall.lengthArg, EntryCall.run,
      EntryCall.func, libusbip_init, libusbip_exit,
    libusbip_get_device_list, libusbip_get_device_descriptor, libusbip_open,
    libusbip_open_device_with_vid_pid, libusbip_close, libusbip_claim_interface,
    libusbip_release_interface, libusbip_get_configuration, libusbip_set_configuration,
    libusbip_set_interface_alt_setting, libusbip_reset_device, libusbip_clear_halt,
    libusbip_get_string_descriptor_ascii, libusbip_control_transfer,
    libusbip_bulk_transfer] at hci hsub hv ⊢ <;>
    (repeat' split) <;>
    simp_all [EntryCall.clientCall, client_call, Func.isVoid]

/-- Server dispatch: in the server role, with valid pointers, every entry other
than `libusbip_init` calls its server function once; an entry that returns a
status returns `SUCCESS`, a transfer entry returns 0. -/
theorem dispatch_server (k : Consts) (env : Env) (w : World) (c : EntryCall)
    (ci : libusbip_connection_info) (hci : c.ci = some ci)
    (hncl : ci.ctx ≠ k.LIBUSBIP_CTX_CLIENT) (hrole : ci.ctx = k.LIBUSBIP_CTX_SERVER)
    (hop : c.func ≠ Func.libusbip_init) (hsub : c.subRecordNull = false) :
    ∃ sc, c.serverCall w.libusbip_ctx = some sc
      ∧ c.run k env w
        = (if c.func.isVoid then none
            else some (if c.func.isTransfer then 0 else k.LIBUSBIP_E_SUCCESS),
            w.log (Event.server sc)) := by
  cases c <;>
    simp only [EntryCall.ci, EntryCall.subRecordNull, EntryCall.run,
      EntryCall.func, libusbip_init, libusbip_exit,
    libusbip_get_device_list, libusbip_get_device_descriptor, libusbip_open,
    libusbip_open_device_with_vid_pid, libusbip_close, libusbip_claim_interface,
    libusbip_release_interface, libusbip_get_configuration, libusbip_set_configuration,
    libusbip_set_interface_alt_setting, libusbip_reset_device, libusbip_clear_halt,
    libusbip_get_string_descriptor_ascii, libusbip_control_transfer,
    libusbip_bulk_transfer] at hci hsub hop ⊢ <;>
    (repeat' split) <;>
    simp_all [EntryCall.serverCall, server_call, Func.isVoid, Func.isTransfer]

/-- C8, amended: the dispatcher keeps no terminal state.  `libusbip_exit` on a
ConnectionInfo does exactly one thing, the call `client_usb_exit(ci)` in the
client role and the call `server_usb_exit(libusbip_ctx)` in the server role, and
leaves `libusbip_ctx` as it was.  An operation other than init and exit invoked
afterwards on the ConnectionInfo, whose role is still `CLIENT` or `SERVER`, with
valid arguments dispatches as usual: in the client role it calls its client
function once and a value-returning entry returns that call's value; otherwise
(server role) it calls its server function once and returns `SUCCESS` (0 for a
transfer).  (`ci` is the ConnectionInfo at the exit, `ci2` the same ConnectionInfo
as the operation finds it.) -/
theorem C8_dispatch_after_exit (k : Consts) (env : Env) (w : World)
    (ci ci2 : libusbip_connection_info) (c : EntryCall)
    (hop : c.func ≠ Func.libusbip_init ∧ c.func ≠ Func.libusbip_exit)
    (hci : c.ci = some ci2)
    (hrole : ci2.ctx = k.LIBUSBIP_CTX_CLIENT ∨ ci2.ctx = k.LIBUSBIP_CTX_SERVER)
    (hsub : c.subRecordNull = false)
    (hlen : ci2.ctx = k.LIBUSBIP_CTX_CLIENT →
      ∀ l, c.lengthArg = some l → 0 ≤ l ∧ l < k.LIBUSBIP_MAX_DATA) :
    (libusbip_exit k env (some ci) w).libusbip_ctx = w.libusbip_ctx
    ∧ (ci.ctx = k.LIBUSBIP_CTX_CLIENT →
        libusbip_exit k env (some ci) w
          = w.log (Event.client (ClientCall.client_usb_exit ci)))
    ∧ (ci.ctx ≠ k.LIBUSBIP_CTX_CLIENT → ci.ctx = k.LIBUSBIP_CTX_SERVER →
        libusbip_exit k env (some ci) w
          = w.log (Event.server (ServerCall.server_usb_exit w.libusbip_ctx)))
    ∧ (ci2.ctx = k.LIBUSBIP_CTX_CLIENT →
        ∃ cc, c.clientCall = some cc
          ∧ c.run k env (libusbip_exit k env (some ci) w)
            = (if c.func.isVoid then none
                else some (env.client_ret (libusbip_exit k env (some ci) w).trace cc),
                (libusbip_exit k env (some ci) w).log (Event.client cc))
          ∧ pathCalls (libusbip_exit k env (some ci) w)
              (c.run k env (libusbip_exit k env (some ci) w)).2 = [Event.client cc])
    ∧ (ci2.ctx ≠ k.LIBUSBIP_CTX_CLIENT →
        ∃ sc, c.serverCall (libusbip_exit k env (some ci) w).libusbip_ctx = some sc
          ∧ c.run k env (libusbip_exit k env (some ci) w)
            = (if c.func.isVoid then none
                else some (if c.func.isTransfer then 0 else k.LIBUSBIP_E_SUCCESS),
                (libusbip_exit k env (some ci) w).log (Event.server sc))
          ∧ pathCalls (libusbip_exit k env (some ci) w)
              (c.run k env (libusbip_exit k env (some ci) w)).2 = [Event.server sc]) := by
  refine ⟨?_, ?_, ?_, ?_, ?_⟩
  · simp only [libusbip_exit]
    (repeat' split) <;> simp [report, World.log, client_call, server_call]
  · intro hcl
    simp [libusbip_exit, hcl, client_call]
  · intro hncl hs
    have hne : ¬ k.LIBUSBIP_CTX_SERVER = k.LIBUSBIP_CTX_CLIENT := by
      rw [← hs]; exact hncl
    simp [libusbip_exit, hs, hne, server_call]
  · intro hcl
    obtain ⟨cc, h1, h2⟩ :=
      dispatch_client k env (libusbip_exit k env (some ci) w) c ci2 hci hcl hsub (hlen hcl)
    exact ⟨cc, h1, h2, by rw [h2]; exact pathCalls_log_client _ cc⟩
  · intro hncl
    have hs : ci2.ctx = k.LIBUSBIP_CTX_SERVER := hrole.resolve_left hncl
    obtain ⟨sc, h1, h2⟩ :=
      dispatch_server k env (libusbip_exit k env (some ci) w) c ci2 hci hncl hs hop.1 hsub
    exact ⟨sc, h1, h2, by rw [h2]; exact pathCalls_log_server _ sc⟩

/-- C8 amended, evaluated: `libusbip_exit` on the server-role ConnectionInfo makes
the one call `server_usb_exit(libusbip_ctx)`, and `libusbip_claim_interface`
afterwards calls `server_usb_claim_interface` and returns `SUCCESS`, so that the
trace holds exactly these two calls. -/
theorem C8_dispatch_after_exit_witness :
    (((EntryCall.libusbip_claim_interface (some ci_server) (some dh0) 0).func
          ≠ Func.libusbip_init
        ∧ (EntryCall.libusbip_claim_interface (some ci_server) (some dh0) 0).func
          ≠ Func.libusbip_exit)
      ∧ (ci_server.ctx = k0.LIBUSBIP_CTX_CLIENT ∨ ci_server.ctx = k0.LIBUSBIP_CTX_SERVER)
      ∧ (EntryCall.libusbip_claim_interface (some ci_server) (some dh0) 0).subRecordNull
          = false
      ∧ ci_server.ctx ≠ k0.LIBUSBIP_CTX_CLIENT
      ∧ ci_server.ctx = k0.LIBUSBIP_CTX_SERVER)
    ∧ libusbip_exit k0 env0 (some ci_server) w0
        = w0.log (Event.server (ServerCall.server_usb_exit w0.libusbip_ctx))
    ∧ (EntryCall.libusbip_claim_interface (some ci_server) (some dh0) 0).run k0 env0
          (libusbip_exit k0 env0 (some ci_server) w0)
        = (some k0.LIBUSBIP_E_SUCCESS,
            (libusbip_exit k0 env0 (some ci_server) w0).log
              (Event.server (ServerCall.server_usb_claim_interface ci_server)))
    ∧ ((EntryCall.libusbip_claim_interface (some ci_server) (some dh0) 0).run k0 env0
          (libusbip_exit k0 env0 (some ci_server) w0)).2.trace
        = [Event.server (ServerCall.server_usb_exit 0),
           Event.server (ServerCall.server_usb_claim_interface ci_server)] := by
  refine ⟨by decide, ?_⟩
  obtain ⟨_, _, hexit, _, hserver⟩ :=
    C8_dispatch_after_exit k0 env0 w0 ci_server ci_server
      (EntryCall.libusbip_claim_interface (some ci_server) (some dh0) 0)
      (by decide) rfl (by decide) (by decide)
      (fun hcl => absurd hcl (by decide))
  obtain ⟨sc, h1, h2, _⟩ := hserver (by decide)
  have hsc : sc = ServerCall.server_usb_claim_interface ci_server :=
    Option.some.inj (h1.symm.trans rfl)
  subst hsc
  refine ⟨hexit (by decide) (by decide), h2, ?_⟩
  rw [h2, hexit (by decide) (by decide)]
  rfl

/-- C9, amended: `libusbip_init` called twice on a server-role ConnectionInfo
returns `SUCCESS` both times, and each call runs the server init handler exactly
once on `&libusbip_ctx`: the second call runs it again, on the context the first
call left there, and stores what the handler produces.  (`ci2` is the
ConnectionInfo as the first call left it, its role unchanged.) -/
theorem C9_server_init_twice (k : Consts) (env : Env) (w : World)
    (ci ci2 : libusbip_connection_info)
    (hne : k.LIBUSBIP_CTX_SERVER ≠ k.LIBUSBIP_CTX_CLIENT)
    (h1 : ci.ctx = k.LIBUSBIP_CTX_SERVER) (h2 : ci2.ctx = k.LIBUSBIP_CTX_SERVER) :
    libusbip_init k env (some ci) w = (k.LIBUSBIP_E_SUCCESS, server_usb_init env ci w)
    ∧ libusbip_init k env (some ci2) (libusbip_init k env (some ci) w).2
        = (k.LIBUSBIP_E_SUCCESS, server_usb_init env ci2 (server_usb_init env ci w))
    ∧ serverCalls w (libusbip_init k env (some ci) w).2
        = [Event.server (ServerCall.server_usb_init ci w.libusbip_ctx)]
    ∧ serverCalls (libusbip_init k env (some ci) w).2
          (libusbip_init k env (some ci2) (libusbip_init k env (some ci) w).2).2
        = [Event.server (ServerCall.server_usb_init ci2
            (env.server_init_ctx w.trace ci w.libusbip_ctx))] := by
  have e1 : ∀ (c : libusbip_connection_info) (v : World), c.ctx = k.LIBUSBIP_CTX_SERVER →
      libusbip_init k env (some c) v = (k.LIBUSBIP_E_SUCCESS, server_usb_init env c v) := by
    intro c v hc
    simp [libusbip_init, hc, hne]
  have e2 : ∀ (c : libusbip_connection_info) (v : World),
      serverCalls v (server_usb_init env c v)
        = [Event.server (ServerCall.server_usb_init c v.libusbip_ctx)] := by
    intro c v
    simp [serverCalls, newEvents, server_usb_init, Event.isServer]
  refine ⟨e1 ci w h1, ?_, ?_, ?_⟩
  · rw [e1 ci w h1, e1 ci2 _ h2]
  · rw [e1 ci w h1]; exact e2 ci w
  · rw [e1 ci w h1, e1 ci2 _ h2]
    simpa [server_usb_init] using e2 ci2 (server_usb_init env ci w)

/-- C9 amended, evaluated: two `libusbip_init` calls on the server-role
ConnectionInfo both return `SUCCESS` and leave two `server_usb_init` calls in the
trace. -/
theorem C9_server_init_twice_witness :
    (k0.LIBUSBIP_CTX_SERVER ≠ k0.LIBUSBIP_CTX_CLIENT
      ∧ ci_server.ctx = k0.LIBUSBIP_CTX_SERVER)
    ∧ libusbip_init k0 env0 (some ci_server) (libusbip_init k0 env0 (some ci_server) w0).2
        = (k0.LIBUSBIP_E_SUCCESS,
            server_usb_init env0 ci_server (server_usb_init env0 ci_server w0)) :=
  ⟨by decide,
    (C9_server_init_twice k0 env0 w0 ci_server ci_server (by decide) (by decide)
      (by decide)).2.1⟩

/-- On a case label, the one event of `libusbip_rpc_call` belongs to an operation
entry, and that entry is the one whose catalog row has the opcode. -/
theorem rpc_owner_of_case (k : Consts) (env : Env) (w : World) (rpc : Int)
    (r : libusbip_rpc_info) (hrpc : rpc ∈ rpc_cases) :
    ∃ e, newEvents w (libusbip_rpc_call k env rpc (some r) w).2 = [e]
      ∧ rpc_owner k env rpc r w = some e.owner
      ∧ e.owner.opcode = rpc ∧ e.owner ≠ Func.libusbip_rpc_call := by
  obtain ⟨c, hcat, hw, _, _, hopc, hnrpc⟩ := rpc_call_eq_catalog k env w rpc r hrpc
  obtain ⟨e, he, ho⟩ := entry_logs_one_event k env c w
  have hn : newEvents w (libusbip_rpc_call k env rpc (some r) w).2 = [e] := by
    simp [newEvents, hw, he]
  refine ⟨e, hn, ?_, ?_⟩
  · simp [rpc_owner, hn]
  · rw [ho]; exact ⟨hopc, hnrpc⟩

/-- C10, amended: the operation set is fixed at seventeen opcodes.  The `switch`
of `libusbip_rpc_call` has seventeen pairwise distinct case labels; a value is
recognised (does not reach the illegal-opcode branch) exactly when it is one of
them; every other value takes the illegal-opcode `FAILURE` branch; and two
different recognised values are routed to different operation entries. -/
theorem C10_seventeen_opcodes (k : Consts) (env : Env) (w : World) (r : libusbip_rpc_info)
    (rpc rpc2 : Int) :
    rpc_cases.length = 17
    ∧ rpc_cases.Nodup
    ∧ (rpc_recognised k env rpc r w = true ↔ rpc ∈ rpc_cases)
    ∧ (rpc ∉ rpc_cases →
        libusbip_rpc_call k env rpc (some r) w
          = (k.LIBUSBIP_E_FAILURE,
              report Diag.error_illegal_libusbip_rpc_t Func.libusbip_rpc_call w))
    ∧ (rpc ∈ rpc_cases → rpc2 ∈ rpc_cases → rpc ≠ rpc2 →
        rpc_owner k env rpc r w ≠ rpc_owner k env rpc2 r w) := by
  refine ⟨by decide, by decide, ?_, rpc_call_default k env w rpc r, ?_⟩
  · constructor
    · intro hrec
      by_contra hn
      rw [rpc_recognised, rpc_call_default k env w rpc r hn, newEvents_report] at hrec
      simp at hrec
    · intro hmem
      obtain ⟨e, hn, _, _, hne⟩ := rpc_owner_of_case k env w rpc r hmem
      rw [rpc_recognised, hn]
      simp only [List.mem_singleton, Bool.not_eq_true', decide_eq_false_iff_not]
      intro heq
      apply hne
      rw [← heq]
      rfl
  · intro h1 h2 hdiff heq
    obtain ⟨e, _, ho, hop, _⟩ := rpc_owner_of_case k env w rpc r h1
    obtain ⟨e2, _, ho2, hop2, _⟩ := rpc_owner_of_case k env w rpc2 r h2
    rw [ho, ho2] at heq
    have := Option.some.inj heq
    apply hdiff
    rw [← hop, ← hop2, this]

/-- C10 amended, evaluated: 17 is not recognised, and the opcodes 15 and 16 are
routed to `libusbip_control_transfer` and `libusbip_bulk_transfer`. -/
theorem C10_seventeen_opcodes_witness :
    ((17 : Int) ∉ rpc_cases ∧ (15 : Int) ∈ rpc_cases ∧ (16 : Int) ∈ rpc_cases
      ∧ (15 : Int) ≠ 16)
    ∧ libusbip_rpc_call k0 env0 17 (some (ri_of ci_client)) w0
        = (k0.LIBUSBIP_E_FAILURE,
            report Diag.error_illegal_libusbip_rpc_t Func.libusbip_rpc_call w0)
    ∧ rpc_owner k0 env0 15 (ri_of ci_client) w0 ≠ rpc_owner k0 env0 16 (ri_of ci_client) w0 :=
  ⟨by decide,
    (C10_seventeen_opcodes k0 env0 w0 (ri_of ci_client) 17 16).2.2.2.1 (by decide),
    (C10_seventeen_opcodes k0 env0 w0 (ri_of ci_client) 15 16).2.2.2.2 (by decide) (by decide)
      (by decide)⟩

/-- Server dispatch with its trace: in the server role, with valid pointers, a
value-returning entry returns `SUCCESS` (0 for a transfer) and the one event it
adds is the call of its server function. -/
theorem server_result (k : Consts) (env : Env) (w : World) (c : EntryCall)
    (ci : libusbip_connection_info) (hci : c.ci = some ci)
    (hncl : ci.ctx ≠ k.LIBUSBIP_CTX_CLIENT) (hrole : ci.ctx = k.LIBUSBIP_CTX_SERVER)
    (hsub : c.subRecordNull = false) (hval : c.func.isVoid = false) :
    ∃ sc, c.serverCall w.libusbip_ctx = some sc
      ∧ (c.run k env w).1 = some (if c.func.isTransfer then 0 else k.LIBUSBIP_E_SUCCESS)
      ∧ (c.run k env w).2.trace = w.trace ++ [Event.server sc] := by
  cases c <;>
    simp only [EntryCall.ci, EntryCall.subRecordNull, EntryCall.run,
      EntryCall.func, libusbip_init, libusbip_exit,
    libusbip_get_device_list, libusbip_get_device_descriptor, libusbip_open,
    libusbip_open_device_with_vid_pid, libusbip_close, libusbip_claim_interface,
    libusbip_release_interface, libusbip_get_configuration, libusbip_set_configuration,
    libusbip_set_interface_alt_setting, libusbip_reset_device, libusbip_clear_halt,
    libusbip_get_string_descriptor_ascii, libusbip_control_transfer,
    libusbip_bulk_transfer] at hci hsub hval ⊢ <;>
    (repeat' split) <;>
    simp_all [EntryCall.serverCall, server_call, server_usb_init, World.log, Func.isVoid,
      Func.isTransfer]

/-- C11: in the server role, with non-null ConnectionInfo and checked pointers,
every entry that returns a status returns `SUCCESS` and both transfer entries
return 0, whatever the other arguments are (no length is validated in this role)
and whatever the external functions do (the result is the same under any two
behaviours `env`, `env2` of them); the entry makes exactly one call, the matching
server function, and no client call. -/
theorem C11_server_role_result (k : Consts) (env env2 : Env) (w : World) (c : EntryCall)
    (ci : libusbip_connection_info)
    (hne : k.LIBUSBIP_CTX_SERVER ≠ k.LIBUSBIP_CTX_CLIENT)
    (hci : c.ci = some ci) (hrole : ci.ctx = k.LIBUSBIP_CTX_SERVER)
    (hsub : c.subRecordNull = false) (hval : c.func.isVoid = false) :
    ∃ sc, c.serverCall w.libusbip_ctx = some sc
      ∧ (c.run k env w).1 = some (if c.func.isTransfer then 0 else k.LIBUSBIP_E_SUCCESS)
      ∧ (c.run k env w).2.trace = w.trace ++ [Event.server sc]
      ∧ serverCalls w (c.run k env w).2 = [Event.server sc]
      ∧ clientCalls w (c.run k env w).2 = []
      ∧ (c.run k env2 w).1 = (c.run k env w).1 := by
  have hncl : ci.ctx ≠ k.LIBUSBIP_CTX_CLIENT := by rw [hrole]; exact hne
  obtain ⟨sc, h1, h2, h3⟩ := server_result k env w c ci hci hncl hrole hsub hval
  obtain ⟨_, _, h2b, _⟩ := server_result k env2 w c ci hci hncl hrole hsub hval
  refine ⟨sc, h1, h2, h3, ?_, ?_, ?_⟩
  · simp [serverCalls, newEvents, h3, Event.isServer]
  · simp [clientCalls, newEvents, h3, Event.isClient]
  · rw [h2, h2b]

/-- C11, evaluated: a server-role bulk transfer with `length = 100000`, outside
`[0, MAX_DATA)`, returns 0 after the one call `server_usb_bulk_transfer`. -/
theorem C11_server_role_result_witness :
    (k0.LIBUSBIP_CTX_SERVER ≠ k0.LIBUSBIP_CTX_CLIENT
      ∧ ci_server.ctx = k0.LIBUSBIP_CTX_SERVER
      ∧ (EntryCall.libusbip_bulk_transfer (some ci_server) (some dh0) 129 (some []) 100000
          (some 0) 1000).subRecordNull = false
      ∧ (EntryCall.libusbip_bulk_transfer (some ci_server) (some dh0) 129 (some []) 100000
          (some 0) 1000).func.isVoid = false
      ∧ ¬ ((0 : Int) ≤ 100000 ∧ (100000 : Int) < k0.LIBUSBIP_MAX_DATA))
    ∧ ((EntryCall.libusbip_bulk_transfer (some ci_server) (some dh0) 129 (some []) 100000
          (some 0) 1000).run k0 env0 w0).1 = some 0
    ∧ serverCalls w0 ((EntryCall.libusbip_bulk_transfer (some ci_server) (some dh0) 129
          (some []) 100000 (some 0) 1000).run k0 env0 w0).2
        = [Event.server (ServerCall.server_usb_bulk_transfer ci_server)] := by
  refine ⟨by decide, ?_⟩
  obtain ⟨sc, h1, h2, _, h4, _, _⟩ :=
    C11_server_role_result k0 env0 env0 w0
      (EntryCall.libusbip_bulk_transfer (some ci_server) (some dh0) 129 (some []) 100000
        (some 0) 1000) ci_server (by decide) rfl (by decide) (by decide) (by decide)
  have hsc : sc = ServerCall.server_usb_bulk_transfer ci_server :=
    Option.some.inj (h1.symm.trans rfl)
  subst hsc
  exact ⟨h2, h4⟩

end Libusbip
